import Mathlib

/-!
# NextStep.AI — Answer Evaluation & Structured-Report Normalization Engine

A shallow embedding, in Lean 4, of the algorithmic core of the NextStep.AI
repository (`src/utils/evaluation.py`, `src/utils/prep_generator.py`, and the
`/answer` route of `src/app.py`), together with theorems settling the frozen
claims about its specification.

Modelling conventions:
* Python strings are Lean `String`s; the Python string operations used by the
  source (`strip`, `lower`, `upper`, `split()`, `" ".join`, `replace`, `in`,
  slicing) are embedded as executable functions over the character list.
* Arbitrary JSON-like values (the parsed upstream documents) are the
  inductive `PyVal`; Python truthiness and `str()` are embedded explicitly.
* Machine floats are embedded as exact rationals (`ℚ`) where the code only
  does field arithmetic, and as reals (`ℝ`) where a square root is required
  (the cosine-similarity path).  Python `round(x, 2)` is embedded as a
  floor-based round-half-up to hundredths; no claim depends on the behaviour
  at exact ties, which is the only point where this differs from float
  rounding.
* External ML models and the remote service are abstracted as function
  parameters (an embedding function, a sentiment oracle, a parsed remote
  response); everything downstream of them is embedded from the source.
-/

/-! ## Python string primitives -/

/-- The whitespace characters recognised by Python `str.strip()` / `str.split()`. -/
def pyWs (c : Char) : Bool :=
  c = ' ' || c = '\t' || c = '\n' || c = '\r' || c = '\x0b' || c = '\x0c'

/-- `str.strip()` on a character list: drop whitespace from both ends. -/
def stripL (l : List Char) : List Char :=
  ((l.dropWhile pyWs).reverse.dropWhile pyWs).reverse

/-- Python `s.strip()`. -/
def pyStrip (s : String) : String := String.mk (stripL s.data)

/-- Python `s.lower()`. -/
def pyLower (s : String) : String := String.mk (s.data.map Char.toLower)

/-- Python `s.upper()`. -/
def pyUpper (s : String) : String := String.mk (s.data.map Char.toUpper)

/-- Worker for `str.split()` with no argument: `cur` is the reversed chunk
being accumulated; maximal non-whitespace chunks are emitted in order. -/
def splitGo (cur : List Char) : List Char → List (List Char)
  | [] => if cur.isEmpty then [] else [cur.reverse]
  | c :: cs =>
    if pyWs c then
      if cur.isEmpty then splitGo [] cs else cur.reverse :: splitGo [] cs
    else splitGo (c :: cur) cs

/-- Python `s.split()` (split on runs of whitespace, no empty chunks). -/
def pySplitWs (s : String) : List String := (splitGo [] s.data).map String.mk

/-- `" ".join` on character lists. -/
def joinSpL : List (List Char) → List Char
  | [] => []
  | [x] => x
  | x :: y :: rest => x ++ ' ' :: joinSpL (y :: rest)

/-- Python `" ".join(parts)`. -/
def pyJoinSp (parts : List String) : String :=
  String.mk (joinSpL (parts.map String.data))

/-- Does the text (second argument) start with the pattern (first argument)? -/
def leadsWith : List Char → List Char → Bool
  | [], _ => true
  | _ :: _, [] => false
  | p :: ps, c :: cs => p = c && leadsWith ps cs

/-- Worker for Python `s.replace(pat, "")` with a non-empty pattern
`p :: ps`: scan left to right, removing each non-overlapping occurrence.
`skip` counts characters of a just-matched occurrence still to be consumed,
so the recursion is structural on the text. -/
def removeGo (p : Char) (ps : List Char) : Nat → List Char → List Char
  | _, [] => []
  | s+1, _ :: cs => removeGo p ps s cs
  | 0, c :: cs =>
    if leadsWith (p :: ps) (c :: cs) then removeGo p ps ps.length cs
    else c :: removeGo p ps 0 cs

/-- Python `s.replace(pat, "")`. -/
def pyRemoveAll (pat : String) (s : String) : String :=
  match pat.data with
  | [] => s
  | p :: ps => String.mk (removeGo p ps 0 s.data)

/-- Worker for Python `pat in s` (substring test). -/
def hasSubstrL (p : Char) (ps : List Char) : List Char → Bool
  | [] => false
  | c :: cs => leadsWith (p :: ps) (c :: cs) || hasSubstrL p ps cs

/-- Python `pat in s`. -/
def pyHasSubstr (pat : String) (s : String) : Bool :=
  match pat.data with
  | [] => true
  | p :: ps => hasSubstrL p ps s.data

/-- Python `s[:n]`. -/
def pyTake (n : Nat) (s : String) : String := String.mk (s.data.take n)

/-- Number of occurrences of the character `c` in `s`. -/
def countCh (c : Char) (s : String) : Nat := s.data.count c

/-- Python `round(x, 2)` on an exact rational (round-half-up to hundredths;
see the header note on ties). -/
def pyRound2 (q : ℚ) : ℚ := (⌊q * 100 + 1/2⌋ : ℚ) / 100

/-! ## JSON-like Python values

`PyVal` models the values `json.loads` can produce (plus anything the code
stores back into such documents).  JSON numbers are modelled as exact
rationals. -/

inductive PyVal where
  | none
  | bool (b : Bool)
  | num (q : ℚ)
  | str (s : String)
  | list (xs : List PyVal)
  | dict (kvs : List (String × PyVal))

/-- Python truthiness of a value (`if x:` / `x or y`). -/
def pyTruthy : PyVal → Bool
  | .none => false
  | .bool b => b
  | .num q => q != 0
  | .str s => s != ""
  | .list xs => !xs.isEmpty
  | .dict kvs => !kvs.isEmpty

/-- Python `a or b` on values. -/
def pyOr (a b : PyVal) : PyVal := if pyTruthy a then a else b

/-- A single-quote character, for rendering Python `repr` of strings. -/
def pyQuote : String := (Char.ofNat 39).toString

/-- Python `repr(x)`, used for elements of containers under `str`.  String
escaping inside `repr` and float formatting are approximated; no claim
depends on the rendering of containers or numbers. -/
def pyReprAux : PyVal → String
  | .none => "None"
  | .bool true => "True"
  | .bool false => "False"
  | .num q => if q.den = 1 then toString q.num else toString q
  | .str s => pyQuote ++ s ++ pyQuote
  | .list xs => "[" ++ String.intercalate ", "
      (xs.attach.map (fun x => pyReprAux x.1)) ++ "]"
  | .dict kvs => "\x7b" ++ String.intercalate ", "
      (kvs.attach.map (fun kv => pyQuote ++ kv.1.1 ++ pyQuote ++ ": " ++
        pyReprAux kv.1.2)) ++ "\x7d"
termination_by v => sizeOf v
decreasing_by
  all_goals simp_wf
  · have := List.sizeOf_lt_of_mem x.2
    omega
  · obtain ⟨⟨k, v⟩, hk⟩ := kv
    have h1 := List.sizeOf_lt_of_mem hk
    simp only [Prod.mk.sizeOf_spec] at h1 ⊢
    omega

/-- Python `str(x)` (container elements render via `repr`, as in Python). -/
def pyStr : PyVal → String
  | .none => "None"
  | .bool true => "True"
  | .bool false => "False"
  | .num q => if q.den = 1 then toString q.num else toString q
  | .str s => s
  | .list xs => "[" ++ String.intercalate ", " (xs.map pyReprAux) ++ "]"
  | .dict kvs => "\x7b" ++ String.intercalate ", "
      (kvs.map (fun kv => pyQuote ++ kv.1 ++ pyQuote ++ ": " ++ pyReprAux kv.2)) ++ "\x7d"

/-- Python `d.get(k)` on a (JSON-object) association list, as `Option`. -/
def dictGet (kvs : List (String × PyVal)) (k : String) : Option PyVal :=
  (kvs.find? (fun kv => kv.1 = k)).map (fun kv => kv.2)

/-- Python `d.get(k)` where a missing key yields `None` (as `json.loads`
also maps JSON `null` to `None`, a present-but-null key is identical to a
missing one downstream, exactly as in the source). -/
def dictGetD (kvs : List (String × PyVal)) (k : String) : PyVal :=
  (dictGet kvs k).getD .none

/-- `str(d.get(k) or "").strip()` — the field-extraction idiom used
throughout the normalizer. -/
def getStrField (kvs : List (String × PyVal)) (k : String) : String :=
  let v := dictGetD kvs k
  pyStrip (pyStr (if pyTruthy v then v else .str ""))

/-- Coerce an `Optional[str]` into a document value. -/
def optStrVal : Option String → PyVal
  | some s => .str s
  | Option.none => .none

/-! ## `src/utils/evaluation.py` — local (offline) evaluation path

The sentence-embedding model and the sentiment pipeline are external ML
models; they are abstracted as the parameters `encode` (one vector per
text, as `model.encode` produces) and `sentiment` (label and probability of
the winning class, as `pipeline(...)[0]` produces).  Everything after them
is embedded from the source.  Vector arithmetic needs a square root, so
this path lives in `ℝ` and is marked `noncomputable`. -/

/-- `np.dot` on two 1-D arrays. -/
def dotList (vec1 vec2 : List ℝ) : ℝ := (List.zipWith (· * ·) vec1 vec2).sum

/-- `np.linalg.norm` on a 1-D array. -/
noncomputable def normList (vec : List ℝ) : ℝ := Real.sqrt (dotList vec vec)

/-- `cosine_similarity(vec1, vec2)` from `evaluation.py`: dot product over
the product of norms, with an explicit zero result when either norm is 0. -/
noncomputable def cosine_similarity (vec1 vec2 : List ℝ) : ℝ :=
  let dot := dotList vec1 vec2
  let norm1 := normList vec1
  let norm2 := normList vec2
  if norm1 = 0 ∨ norm2 = 0 then 0 else dot / (norm1 * norm2)

/-- `score_relevance(question, ideal_answer, user_answer)` from
`evaluation.py`, with the embedding model abstracted as `encode`. -/
noncomputable def score_relevance (encode : String → List ℝ)
    (question ideal_answer user_answer : String) : ℝ :=
  let ideal_vec := encode ideal_answer
  let user_vec := encode user_answer
  let question_vec := encode question
  let sim_ideal := cosine_similarity ideal_vec user_vec
  let sim_question := cosine_similarity question_vec user_vec
  let combined_sim := 0.7 * sim_ideal + 0.3 * sim_question
  max 0 (min 100 ((combined_sim + 1) / 2 * 100))

/-- `score_confidence(user_answer)` from `evaluation.py`, with the sentiment
pipeline abstracted as `sentiment` (applied, as in the source, to the first
512 characters). -/
noncomputable def score_confidence (sentiment : String → String × ℝ)
    (user_answer : String) : ℝ :=
  let sent := sentiment (pyTake 512 user_answer)
  let label := sent.1
  let score := sent.2
  let base :=
    if pyUpper label = "POSITIVE" then 0.8 + 0.2 * score
    else if pyUpper label = "NEUTRAL" then 0.5 + 0.3 * score
    else 0.2 + 0.3 * (1 - score)
  let length := ((pySplitWs user_answer).length : ℝ)
  let length_factor := min (length / 40) 1
  max 0 (min 100 ((base * 0.6 + length_factor * 0.4) * 100))

/-- `build_feedback_text(...)` from `evaluation.py`. -/
noncomputable def build_feedback_text (question user_answer : String)
    (relevance_score confidence_score : ℝ) : String :=
  let part1 :=
    if relevance_score > 80 then
      "Your answer is highly relevant to the question."
    else if relevance_score > 60 then
      "Your answer is mostly relevant, but you could align it more closely with what the question is asking."
    else
      "Your answer only partially addresses the question. Try to focus more on what is being asked."
  let part2 :=
    if confidence_score > 80 then
      "You sound confident and clear in your explanation."
    else if confidence_score > 60 then
      "Your communication is okay, but you could be more structured and assertive."
    else
      "Your answer comes across as hesitant or incomplete. Try speaking more clearly and giving concrete examples."
  let parts :=
    if (pySplitWs user_answer).length < 30 then
      [part1, part2, "Consider expanding your answer with more detail or examples."]
    else [part1, part2]
  pyJoinSp parts

/-- The dictionary returned by the local `evaluate_answer` (it has no
`strengths`/`improvements` keys, unlike the remote record). -/
structure LocalRecord where
  question : String
  user_answer : String
  relevance_score : ℝ
  confidence_score : ℝ
  final_score : ℝ
  feedback_text : String

/-- Python `round(x, 2)` on a real (see the header note on ties). -/
noncomputable def pyRound2R (x : ℝ) : ℝ := (⌊x * 100 + 1/2⌋ : ℤ) / 100

/-- `evaluate_answer(question, ideal_answer, user_answer)` from
`evaluation.py` — the classical local evaluation path. -/
noncomputable def evaluate_answer (encode : String → List ℝ)
    (sentiment : String → String × ℝ)
    (question ideal_answer user_answer : String) : LocalRecord :=
  let relevance_score := score_relevance encode question ideal_answer user_answer
  let confidence_score := score_confidence sentiment user_answer
  let final_score := 0.6 * relevance_score + 0.4 * confidence_score
  { question := question
    user_answer := user_answer
    relevance_score := pyRound2R relevance_score
    confidence_score := pyRound2R confidence_score
    final_score := pyRound2R final_score
    feedback_text := build_feedback_text question user_answer relevance_score confidence_score }

/-! ## `src/utils/evaluation.py` — remote (GPT) evaluation path

`gpt_evaluate_answer` sends a fixed prompt and parses the JSON reply.  The
reply is abstracted as `GptResponse`: `Option ℚ` for each numeric field
covers both a missing key and JSON `null` (both give `data.get(...) is
None`); a present non-numeric value would make `float(...)` raise, which is
part of the remote-failure path modelled in the route embedding below. -/

structure GptResponse where
  relevance_score : Option ℚ
  confidence_score : Option ℚ
  final_score : Option ℚ
  strengths : List String
  improvements : List String

/-- The dictionary returned by `gpt_evaluate_answer`. -/
structure GptRecord where
  question : String
  user_answer : String
  relevance_score : ℚ
  confidence_score : ℚ
  final_score : ℚ
  feedback_text : String
  strengths : List String
  improvements : List String
  deriving DecidableEq

/-- `gpt_evaluate_answer(question, ideal_answer, user_answer)` from
`evaluation.py`, with the already-parsed remote reply as `resp`.  The
`ideal_answer` argument only feeds the prompt, so it does not appear in the
record. -/
def gpt_evaluate_answer (resp : GptResponse)
    (question ideal_answer user_answer : String) : GptRecord :=
  let rel := resp.relevance_score.getD 0
  let conf := resp.confidence_score.getD 0
  let final_score :=
    match resp.final_score with
    | some f => f
    | none => 0.7 * rel + 0.3 * conf
  let strengths_text :=
    if !resp.strengths.isEmpty then
      "Strengths: " ++ String.intercalate "; " resp.strengths
    else ""
  let improvements_text :=
    if !resp.improvements.isEmpty then
      "Improvements: " ++ String.intercalate "; " resp.improvements
    else ""
  let feedback_text := pyJoinSp (([strengths_text, improvements_text]).filter (· ≠ ""))
  { question := question
    user_answer := user_answer
    relevance_score := pyRound2 rel
    confidence_score := pyRound2 conf
    final_score := pyRound2 final_score
    feedback_text := feedback_text
    strengths := resp.strengths
    improvements := resp.improvements }

/-! ## `src/utils/prep_generator.py` — data model

The normalizer always builds a dictionary of a fixed shape; that literal
shape is embedded as the structures below.  `candidate_name` is passed
through unmodified by the source, so it stays an arbitrary `PyVal`. -/

structure Legend where
  situation : String
  task : String
  action : String
  result : String
  deriving DecidableEq

structure QAExample where
  experience_name : String
  experience_source_quote : String
  confidence : String
  question : String
  answer : String
  legend : Legend
  deriving DecidableEq

structure Project where
  title : String
  summary : String
  deriving DecidableEq

structure KnowSection where
  mission_values : List String
  culture_snapshot : List String
  recent_projects_news : List String
  competitors_industry_trends : List String
  deriving DecidableEq

structure FitSection where
  top_strengths : List String
  best_projects : List Project
  deriving DecidableEq

structure BehSection where
  questions : List String
  example_answers : List QAExample
  deriving DecidableEq

structure TechSection where
  questions : List String
  example_answers : List QAExample
  key_concepts : List String
  red_flags : List String
  deriving DecidableEq

structure ImprovementSection where
  skill_gaps : List String
  soft_skills : List String
  learning_focus : List String
  deriving DecidableEq

structure ImpressSection where
  team_culture : List String
  impact_growth : List String
  technical_depth : List String
  company_direction : List String
  next_steps : List String
  deriving DecidableEq

structure PrepReport where
  mode : String
  candidate_name : PyVal
  know_all_about_them : KnowSection
  perfect_fit_map : FitSection
  behavioral_practice : BehSection
  technical_prep : TechSection
  improvement_zone : ImprovementSection
  impress_them_back : ImpressSection
  debug_note : Option String

/-! ## `src/utils/prep_generator.py` — normalization -/

/-- The local `as_list` helper of `_normalize_prep_report`. -/
def as_list (v : PyVal) : List PyVal :=
  match v with
  | .none => []
  | .list xs => xs
  | x => [x]

/-- The local `as_dict` helper (non-dicts coerce to the empty dict). -/
def as_dict (v : PyVal) : List (String × PyVal) :=
  match v with
  | .dict kvs => kvs
  | _ => []

/-- One iteration of `_coerce_str_list`: drop `None`, stringify and strip,
keep a non-empty result. -/
def coerce_one (x : PyVal) : Option String :=
  match x with
  | .none => Option.none
  | _ =>
    let s := pyStrip (pyStr x)
    if s = "" then Option.none else some s

/-- `_coerce_str_list(items)`. -/
def coerce_str_list (items : List PyVal) : List String :=
  items.filterMap coerce_one

/-- Keep a confidence value only when it is one of the three allowed
levels, else `"low"` (the test both coercion passes perform). -/
def normConf (c : String) : String :=
  if c = "high" ∨ c = "medium" ∨ c = "low" then c else "low"

/-- One iteration of `_normalize_examples_with_legend`: coerce an arbitrary
value to a `QAExample`, or drop it when both question and answer are empty.
(The source computes `strip` then `lower` on `confidence` here.) -/
def normalize_example (ex : PyVal) : Option QAExample :=
  let exd := as_dict ex
  let exp_name := getStrField exd "experience_name"
  let exp_quote := getStrField exd "experience_source_quote"
  let conf := normConf (pyLower (getStrField exd "confidence"))
  let q := getStrField exd "question"
  let a := getStrField exd "answer"
  let legend_in := as_dict (dictGetD exd "legend")
  let legend : Legend :=
    { situation := getStrField legend_in "🔴Situation"
      task := getStrField legend_in "🔵Task"
      action := getStrField legend_in "🟢Action"
      result := getStrField legend_in "🟣Result" }
  if q ≠ "" ∨ a ≠ "" then
    some { experience_name := exp_name, experience_source_quote := exp_quote,
           confidence := conf, question := q, answer := a, legend := legend }
  else Option.none

/-- `_normalize_examples_with_legend(raw_examples)`. -/
def normalize_examples_with_legend (raw_examples : List PyVal) : List QAExample :=
  raw_examples.filterMap normalize_example

/-- Coercion of one raw `best_projects` entry. -/
def normalize_project (p : PyVal) : Option Project :=
  let pd := as_dict p
  let title := getStrField pd "title"
  let summary := getStrField pd "summary"
  if title ≠ "" ∨ summary ≠ "" then
    some { title := if title ≠ "" then title else "Project highlight", summary := summary }
  else Option.none

/-- `_normalize_prep_report(data, candidate_name, fallback_mode)`.  The
source would raise (and thus take the caller's fallback path) on a non-dict
`data`, so the embedded domain is the dict's key/value list. -/
def normalize_prep_report (data : List (String × PyVal))
    (candidate_name : Option String) (fallback_mode : String) : PrepReport :=
  let know := as_dict (dictGetD data "know_all_about_them")
  let fit := as_dict (dictGetD data "perfect_fit_map")
  let beh := as_dict (dictGetD data "behavioral_practice")
  let tech := as_dict (dictGetD data "technical_prep")
  let imp := as_dict (dictGetD data "improvement_zone")
  let itm := as_dict (dictGetD data "impress_them_back")
  let best_projects := (as_list (dictGetD fit "best_projects")).filterMap normalize_project
  let beh_examples := normalize_examples_with_legend (as_list (dictGetD beh "example_answers"))
  let tech_examples := normalize_examples_with_legend (as_list (dictGetD tech "example_answers"))
  let mode :=
    let m := pyStrip (pyStr (pyOr (dictGetD data "mode") (.str fallback_mode)))
    if m = "" then fallback_mode else m
  let cname := pyOr (dictGetD data "candidate_name") (optStrVal candidate_name)
  { mode := mode
    candidate_name := cname
    know_all_about_them :=
      { mission_values := coerce_str_list (as_list (dictGetD know "mission_values"))
        culture_snapshot := coerce_str_list (as_list (dictGetD know "culture_snapshot"))
        recent_projects_news := coerce_str_list (as_list (dictGetD know "recent_projects_news"))
        competitors_industry_trends :=
          coerce_str_list (as_list (dictGetD know "competitors_industry_trends")) }
    perfect_fit_map :=
      { top_strengths := coerce_str_list (as_list (dictGetD fit "top_strengths"))
        best_projects := best_projects }
    behavioral_practice :=
      { questions := coerce_str_list (as_list (dictGetD beh "questions"))
        example_answers := beh_examples }
    technical_prep :=
      { questions := coerce_str_list (as_list (dictGetD tech "questions"))
        example_answers := tech_examples
        key_concepts := coerce_str_list (as_list (dictGetD tech "key_concepts"))
        red_flags := coerce_str_list (as_list (dictGetD tech "red_flags")) }
    improvement_zone :=
      { skill_gaps := coerce_str_list (as_list (dictGetD imp "skill_gaps"))
        soft_skills := coerce_str_list (as_list (dictGetD imp "soft_skills"))
        learning_focus := coerce_str_list (as_list (dictGetD imp "learning_focus")) }
    impress_them_back :=
      { team_culture := coerce_str_list (as_list (dictGetD itm "team_culture"))
        impact_growth := coerce_str_list (as_list (dictGetD itm "impact_growth"))
        technical_depth := coerce_str_list (as_list (dictGetD itm "technical_depth"))
        company_direction := coerce_str_list (as_list (dictGetD itm "company_direction"))
        next_steps := coerce_str_list (as_list (dictGetD itm "next_steps")) }
    debug_note :=
      let s := getStrField data "debug_note"
      if s = "" then Option.none else some s }

/-! ## `src/utils/prep_generator.py` — cardinality enforcement -/

/-- The fixed bank of default behavioral questions in
`_enforce_exact_qna_counts`. -/
def default_beh_q : List String :=
  ["Describe a time you took full ownership of a challenging project.",
   "Tell me about a time you dealt with ambiguity.",
   "Describe a time you had to learn a new technology quickly.",
   "Tell me about a time you received critical feedback and how you handled it.",
   "Give an example of a time you collaborated with cross-functional teams.",
   "How have you contributed to improving team processes or code quality?"]

/-- The fixed bank of default technical questions in
`_enforce_exact_qna_counts`. -/
def default_tech_q : List String :=
  ["Explain how you would build a scalable backend service for processing healthcare data.",
   "How would you design an API to support high traffic while staying reliable?",
   "How do you approach database schema design and query performance optimization?",
   "How would you add observability (logs, metrics, tracing) to a production service?",
   "How do you ensure code is maintainable and testable as the system grows?",
   "How would you debug a production incident with limited information?"]

/-- `scrub_answer(text)` (local helper of `_enforce_exact_qna_counts`):
remove each of the four STAR-phase tokens with one `str.replace` pass
(stripping after each), then collapse whitespace via `" ".join(text.split())`. -/
def scrub_answer (text : String) : String :=
  if text = "" then text
  else
    let t1 := pyStrip (pyRemoveAll "🔴Situation:" text)
    let t2 := pyStrip (pyRemoveAll "🔵Task:" t1)
    let t3 := pyStrip (pyRemoveAll "🟢Action:" t2)
    let t4 := pyStrip (pyRemoveAll "🟣Result:" t3)
    pyJoinSp (pySplitWs t4)

/-- `make_fallback_answer(q, is_tech)` (local helper of
`_enforce_exact_qna_counts`). -/
def make_fallback_answer (q : String) (is_tech : Bool) : QAExample :=
  if is_tech then
    { experience_name := ""
      experience_source_quote := ""
      confidence := "low"
      question := q
      answer := "To handle this, I would start by clarifying requirements and constraints, then design a modular service with clear API boundaries, efficient data access patterns, and a safe processing pipeline. I would add validation, batching where appropriate, and caching for hot reads, then layer in observability and tests to make it reliable under load. Finally, I would roll it out gradually and track metrics like latency, error rate, throughput, and cost so the system can scale predictably."
      legend :=
        { situation := "A production service must process growing volumes of sensitive data with strict reliability needs."
          task := "Design for scalability, correctness, and maintainability."
          action := "Use modular APIs, efficient queries, batching/queues where needed, caching, and strong observability/testing."
          result := "A service that scales with predictable performance and measurable reliability." } }
  else
    { experience_name := ""
      experience_source_quote := ""
      confidence := "low"
      question := q
      answer := "In a challenging project, I take ownership by clarifying the goal, breaking the work into milestones, communicating early with stakeholders, and delivering in small increments with tests. If something is unclear, I propose a direction, validate it quickly, and adjust based on feedback so progress never stalls. The outcome is usually faster delivery with fewer surprises and stronger trust from the team."
      legend :=
        { situation := "A high impact project with constraints like time, complexity, and changing requirements."
          task := "Own the work end to end and keep delivery on track."
          action := "Plan milestones, communicate proactively, ship iteratively with quality checks."
          result := "Delivered outcomes with fewer issues and clearer stakeholder alignment." } }

/-- The `index_by_question` map of `_enforce_exact_qna_counts`, read back at
key `q`: Python dict insertion is last-wins, and entries are keyed by the
stripped question when non-empty, so the lookup returns the last item whose
stripped question equals `q`. -/
def index_get (items : List QAExample) (q : String) : Option QAExample :=
  if q = "" then Option.none
  else items.reverse.find? (fun it => pyStrip it.question = q)

/-- The per-answer repair applied by `_enforce_exact_qna_counts` to an
existing example matched to question `q`. -/
def enforce_example (q : String) (ex : QAExample) : QAExample :=
  { ex with
    question := q
    answer := scrub_answer ex.answer
    confidence := normConf (pyStrip (pyLower ex.confidence))
    legend :=
      { situation := pyStrip ex.legend.situation
        task := pyStrip ex.legend.task
        action := pyStrip ex.legend.action
        result := pyStrip ex.legend.result } }

/-- The answer-alignment loop of `_enforce_exact_qna_counts`: one repaired
or synthesized answer per final question, in order. -/
def align_answers (qs : List String) (amap : List QAExample) (is_tech : Bool) :
    List QAExample :=
  qs.map (fun q =>
    match index_get amap q with
    | some ex => enforce_example q ex
    | Option.none => make_fallback_answer q is_tech)

/-- `_enforce_exact_qna_counts(report)`. -/
def enforce_exact_qna_counts (report : PrepReport) : PrepReport :=
  let beh_q := (report.behavioral_practice.questions ++ default_beh_q).take 6
  let tech_q := (report.technical_prep.questions ++ default_tech_q).take 6
  { report with
    behavioral_practice :=
      { questions := beh_q
        example_answers := align_answers beh_q report.behavioral_practice.example_answers false }
    technical_prep :=
      { report.technical_prep with
        questions := tech_q
        example_answers := align_answers tech_q report.technical_prep.example_answers true } }

/-- The full report-normalization path: coercion (`_normalize_prep_report`)
followed by cardinality enforcement (`_enforce_exact_qna_counts`), exactly
as `generate_prep_report` composes them on a successful upstream call. -/
def normalize_path (data : List (String × PyVal))
    (candidate_name : Option String) (fallback_mode : String) : PrepReport :=
  enforce_exact_qna_counts (normalize_prep_report data candidate_name fallback_mode)

/-! ## `src/utils/prep_generator.py` — fallback builders and entry point -/

/-- Python truthiness of an `Optional[str]`. -/
def optTruthy : Option String → Bool
  | some s => s ≠ ""
  | Option.none => false

/-- `_local_fallback_prep_report(...)`. -/
def local_fallback_prep_report (job_title : String)
    (company_name job_description candidate_name : Option String) : PrepReport :=
  { mode :=
      if optTruthy company_name && pyStrip (job_description.getD "") ≠ "" then
        "role_and_company"
      else "role_focused"
    candidate_name := optStrVal candidate_name
    debug_note := some "Offline mode: using a basic template report."
    know_all_about_them :=
      { mission_values := ["Mirror the company mission language in your intro and closing."]
        culture_snapshot := ["Bring one story that shows ownership and one that shows collaboration."]
        recent_projects_news := ["Reference 1 or 2 recent product updates and explain why they matter."]
        competitors_industry_trends := ["Know 2 competitors and a clear differentiation for each."] }
    perfect_fit_map :=
      { top_strengths := ["Ownership", "Full stack delivery"], best_projects := [] }
    behavioral_practice := { questions := [], example_answers := [] }
    technical_prep :=
      { questions := [], example_answers := [], key_concepts := [], red_flags := [] }
    improvement_zone := { skill_gaps := [], soft_skills := [], learning_focus := [] }
    impress_them_back :=
      { team_culture := [], impact_growth := [], technical_depth := []
        company_direction := [], next_steps := [] } }

/-- `_error_report(message, ...)`. -/
def error_report (message : String)
    (candidate_name company_name : Option String) (job_title : String) : PrepReport :=
  let company_label := if optTruthy company_name then company_name.getD "" else "the company"
  { mode := "role_focused"
    candidate_name := optStrVal candidate_name
    debug_note := some message
    know_all_about_them :=
      { mission_values := ["Unable to generate company insights for " ++ company_label ++ "."]
        culture_snapshot := []
        recent_projects_news := []
        competitors_industry_trends := [] }
    perfect_fit_map := { top_strengths := [], best_projects := [] }
    behavioral_practice := { questions := [], example_answers := [] }
    technical_prep :=
      { questions := [], example_answers := [], key_concepts := [], red_flags := [] }
    improvement_zone := { skill_gaps := [], soft_skills := [], learning_focus := [] }
    impress_them_back :=
      { team_culture := [], impact_growth := [], technical_depth := []
        company_direction := [], next_steps := [] } }

/-- `generate_prep_report(...)`.  The entire `try` block up to and including
`json.loads` is abstracted as `upstream`: `.ok kvs` is a successful call
returning the parsed JSON object, `.error e` is any raised exception
(network error, timeout, unparseable or non-object JSON), whose rendered
message is `e`.  The `resume_text`/`resume` merging only feeds the prompt,
so those arguments do not influence the returned report. -/
def generate_prep_report (job_title : Option String)
    (company_name job_description candidate_name : Option String)
    (use_gpt : Bool) (upstream : Except String (List (String × PyVal))) : PrepReport :=
  let jt := pyStrip (job_title.getD "")
  if jt = "" then
    error_report "Missing required input: job_title" candidate_name company_name jt
  else if !use_gpt then
    local_fallback_prep_report jt company_name job_description candidate_name
  else
    let mode_hint :=
      if optTruthy company_name && pyStrip (job_description.getD "") ≠ "" then
        "role_and_company"
      else "role_focused"
    match upstream with
    | .ok data => normalize_path data candidate_name mode_hint
    | .error e =>
      let fallback := local_fallback_prep_report jt company_name job_description candidate_name
      let fallback :=
        { fallback with
          debug_note := some ("GPT generation failed, fallback mode used. Error: " ++ e) }
      enforce_exact_qna_counts fallback

/-! ## Reading a normalized report back as a raw document

`PrepReport` embeds the literal dictionary the normalizer builds;
`reportToVal` renders it back as that dictionary, which is what "running
the normalization path on its own output" feeds back in. -/

def legendToVal (lg : Legend) : PyVal :=
  .dict [("🔴Situation", .str lg.situation), ("🔵Task", .str lg.task),
         ("🟢Action", .str lg.action), ("🟣Result", .str lg.result)]

def exampleToVal (ex : QAExample) : PyVal :=
  .dict [("experience_name", .str ex.experience_name),
         ("experience_source_quote", .str ex.experience_source_quote),
         ("confidence", .str ex.confidence),
         ("question", .str ex.question),
         ("answer", .str ex.answer),
         ("legend", legendToVal ex.legend)]

def strListToVal (xs : List String) : PyVal := .list (xs.map .str)

def projectToVal (p : Project) : PyVal :=
  .dict [("title", .str p.title), ("summary", .str p.summary)]

def reportToVal (r : PrepReport) : List (String × PyVal) :=
  [("mode", .str r.mode),
   ("candidate_name", r.candidate_name),
   ("know_all_about_them", .dict
     [("mission_values", strListToVal r.know_all_about_them.mission_values),
      ("culture_snapshot", strListToVal r.know_all_about_them.culture_snapshot),
      ("recent_projects_news", strListToVal r.know_all_about_them.recent_projects_news),
      ("competitors_industry_trends", strListToVal r.know_all_about_them.competitors_industry_trends)]),
   ("perfect_fit_map", .dict
     [("top_strengths", strListToVal r.perfect_fit_map.top_strengths),
      ("best_projects", .list (r.perfect_fit_map.best_projects.map projectToVal))]),
   ("behavioral_practice", .dict
     [("questions", strListToVal r.behavioral_practice.questions),
      ("example_answers", .list (r.behavioral_practice.example_answers.map exampleToVal))]),
   ("technical_prep", .dict
     [("questions", strListToVal r.technical_prep.questions),
      ("example_answers", .list (r.technical_prep.example_answers.map exampleToVal)),
      ("key_concepts", strListToVal r.technical_prep.key_concepts),
      ("red_flags", strListToVal r.technical_prep.red_flags)]),
   ("improvement_zone", .dict
     [("skill_gaps", strListToVal r.improvement_zone.skill_gaps),
      ("soft_skills", strListToVal r.improvement_zone.soft_skills),
      ("learning_focus", strListToVal r.improvement_zone.learning_focus)]),
   ("impress_them_back", .dict
     [("team_culture", strListToVal r.impress_them_back.team_culture),
      ("impact_growth", strListToVal r.impress_them_back.impact_growth),
      ("technical_depth", strListToVal r.impress_them_back.technical_depth),
      ("company_direction", strListToVal r.impress_them_back.company_direction),
      ("next_steps", strListToVal r.impress_them_back.next_steps)]),
   ("debug_note", optStrVal r.debug_note)]

/-! ## `src/app.py` — the `/answer` route

`answer()` reads the form, looks the daily question up, calls the remote
evaluator `gpt_evaluate_answer`, persists the record (external collaborator,
does not change the response), and renders the result page.  There is no
`try`/`except` around the remote call: an exception propagates to the
global `@app.errorhandler(Exception)` `handle_unexpected_error`, which for
a non-`HTTPException` returns the tuple `("Internal server error", 500)`. -/

structure DailyQuestion where
  question_text : String
  ideal_answer : Option String

inductive RouteResponse where
  /-- `render_template("result.html", result=eval_result)`. -/
  | resultPage (record : GptRecord)
  /-- `render_template("result.html", result=\x7b"error": msg\x7d)`. -/
  | errorPage (message : String)
  /-- The global handler's `("Internal server error", 500)`. -/
  | serverError (body : String) (status : Nat)
  deriving DecidableEq

/-- The `/answer` route.  `remote` abstracts the outcome of the
`client.chat.completions.create` call plus JSON parsing inside
`gpt_evaluate_answer`: `.ok resp` is a parsed reply, `.error e` is any
raised exception (error, timeout, unparseable content). -/
def answer_route (form_answer form_question_id : Option String)
    (lookup_daily : String → Option DailyQuestion)
    (remote : Except String GptResponse) : RouteResponse :=
  let user_answer := pyStrip (form_answer.getD "")
  if user_answer = "" then .errorPage "No answer received. Please type something."
  else if !optTruthy form_question_id then .errorPage "Missing question ID."
  else
    match lookup_daily (form_question_id.getD "") with
    | Option.none => .errorPage "Daily question not found."
    | some daily_q =>
      match remote with
      | .error _ => .serverError "Internal server error" 500
      | .ok resp =>
        .resultPage (gpt_evaluate_answer resp daily_q.question_text
          (match daily_q.ideal_answer with
           | some s => if s ≠ "" then s else ""
           | Option.none => "") user_answer)

/-! ## Helper lemmas: cardinality enforcement -/

lemma align_pick_question (q : String) (amap : List QAExample) (b : Bool) :
    (match index_get amap q with
     | some ex => enforce_example q ex
     | Option.none => make_fallback_answer q b).question = q := by
  cases index_get amap q with
  | none => cases b <;> simp [make_fallback_answer]
  | some ex => simp [enforce_example]

lemma align_answers_map_question (qs : List String) (amap : List QAExample) (b : Bool) :
    (align_answers qs amap b).map (fun e => e.question) = qs := by
  unfold align_answers
  rw [List.map_map]
  induction qs with
  | nil => rfl
  | cons q qs ih =>
    simp only [List.map_cons, Function.comp_apply, ih, List.cons.injEq, and_true]
    exact align_pick_question q amap b

lemma align_answers_length (qs : List String) (amap : List QAExample) (b : Bool) :
    (align_answers qs amap b).length = qs.length := List.length_map _ _

lemma take6_append_length (qs bank : List String) (h : bank.length = 6) :
    ((qs ++ bank).take 6).length = 6 := by
  simp only [List.length_take, List.length_append, h]
  omega

/-- **C1.** For every raw document fed to the report normalization path
(`_normalize_prep_report` then `_enforce_exact_qna_counts`), the returned
report satisfies the cardinality law: in each of `behavioral_practice` and
`technical_prep`, both `questions` and `example_answers` have length
exactly 6, and the i-th example answer's `question` field equals the i-th
question (stated as: mapping `question` over the answers yields the
question list). -/
theorem claim_C1 (data : List (String × PyVal)) (c : Option String) (m : String) :
    (normalize_path data c m).behavioral_practice.questions.length = 6 ∧
    (normalize_path data c m).behavioral_practice.example_answers.length = 6 ∧
    (normalize_path data c m).behavioral_practice.example_answers.map (fun e => e.question)
      = (normalize_path data c m).behavioral_practice.questions ∧
    (normalize_path data c m).technical_prep.questions.length = 6 ∧
    (normalize_path data c m).technical_prep.example_answers.length = 6 ∧
    (normalize_path data c m).technical_prep.example_answers.map (fun e => e.question)
      = (normalize_path data c m).technical_prep.questions := by
  unfold normalize_path enforce_exact_qna_counts
  refine ⟨take6_append_length _ _ rfl, ?_, align_answers_map_question _ _ _,
    take6_append_length _ _ rfl, ?_, align_answers_map_question _ _ _⟩
  · rw [align_answers_length]
    exact take6_append_length _ _ rfl
  · rw [align_answers_length]
    exact take6_append_length _ _ rfl

/-! ## Claim C9: section floors -/

/-- **C9 (counterexample).** The claim says the normalized report's non-Q/A
sections are topped up with filler bullets until soft minimums are met
(≥10 `impress_them_back` bullets, ≥4 `know_all_about_them` bullets, ≥6 key
concepts, ≥3 red flags).  On the empty raw document every one of those
lists comes back empty: no top-up logic exists anywhere in the source. -/
theorem claim_C9_counterexample :
    (normalize_path [] Option.none "role_focused").know_all_about_them.mission_values = [] ∧
    (normalize_path [] Option.none "role_focused").know_all_about_them.culture_snapshot = [] ∧
    (normalize_path [] Option.none "role_focused").know_all_about_them.recent_projects_news = [] ∧
    (normalize_path [] Option.none "role_focused").know_all_about_them.competitors_industry_trends = [] ∧
    (normalize_path [] Option.none "role_focused").impress_them_back.team_culture = [] ∧
    (normalize_path [] Option.none "role_focused").impress_them_back.impact_growth = [] ∧
    (normalize_path [] Option.none "role_focused").impress_them_back.technical_depth = [] ∧
    (normalize_path [] Option.none "role_focused").impress_them_back.company_direction = [] ∧
    (normalize_path [] Option.none "role_focused").impress_them_back.next_steps = [] ∧
    (normalize_path [] Option.none "role_focused").technical_prep.key_concepts = [] ∧
    (normalize_path [] Option.none "role_focused").technical_prep.red_flags = [] := by
  decide

/-- **C9 (amended).** The normalizer adds no filler to the non-Q/A
sections: each normalized non-Q/A list is the string-coercion of the
corresponding upstream list, so its length never exceeds the upstream
list's length (the soft minimums are only requested of the upstream model
in the prompt, never enforced locally). -/
theorem claim_C9_amended (data : List (String × PyVal)) (c : Option String) (m : String) :
    (normalize_path data c m).know_all_about_them.mission_values.length
      ≤ (as_list (dictGetD (as_dict (dictGetD data "know_all_about_them")) "mission_values")).length ∧
    (normalize_path data c m).know_all_about_them.culture_snapshot.length
      ≤ (as_list (dictGetD (as_dict (dictGetD data "know_all_about_them")) "culture_snapshot")).length ∧
    (normalize_path data c m).know_all_about_them.recent_projects_news.length
      ≤ (as_list (dictGetD (as_dict (dictGetD data "know_all_about_them")) "recent_projects_news")).length ∧
    (normalize_path data c m).know_all_about_them.competitors_industry_trends.length
      ≤ (as_list (dictGetD (as_dict (dictGetD data "know_all_about_them")) "competitors_industry_trends")).length ∧
    (normalize_path data c m).impress_them_back.team_culture.length
      ≤ (as_list (dictGetD (as_dict (dictGetD data "impress_them_back")) "team_culture")).length ∧
    (normalize_path data c m).impress_them_back.impact_growth.length
      ≤ (as_list (dictGetD (as_dict (dictGetD data "impress_them_back")) "impact_growth")).length ∧
    (normalize_path data c m).impress_them_back.technical_depth.length
      ≤ (as_list (dictGetD (as_dict (dictGetD data "impress_them_back")) "technical_depth")).length ∧
    (normalize_path data c m).impress_them_back.company_direction.length
      ≤ (as_list (dictGetD (as_dict (dictGetD data "impress_them_back")) "company_direction")).length ∧
    (normalize_path data c m).impress_them_back.next_steps.length
      ≤ (as_list (dictGetD (as_dict (dictGetD data "impress_them_back")) "next_steps")).length ∧
    (normalize_path data c m).technical_prep.key_concepts.length
      ≤ (as_list (dictGetD (as_dict (dictGetD data "technical_prep")) "key_concepts")).length ∧
    (normalize_path data c m).technical_prep.red_flags.length
      ≤ (as_list (dictGetD (as_dict (dictGetD data "technical_prep")) "red_flags")).length := by
  unfold normalize_path enforce_exact_qna_counts normalize_prep_report coerce_str_list
  refine ⟨?_, ?_, ?_, ?_, ?_, ?_, ?_, ?_, ?_, ?_, ?_⟩ <;>
    exact List.length_filterMap_le _ _

/-! ## Claim C10: missing job title -/

/-- **C10.** Whenever `job_title` is `None`, empty, or whitespace-only,
`generate_prep_report` returns (never raises) the `_error_report` document
with `debug_note = "Missing required input: job_title"` and empty Q/A
lists in both sections — the exactly-6 enforcement is not applied on this
path, regardless of the other arguments. -/
theorem claim_C10 (job_title company_name job_description candidate_name : Option String)
    (use_gpt : Bool) (upstream : Except String (List (String × PyVal)))
    (h : pyStrip (job_title.getD "") = "") :
    generate_prep_report job_title company_name job_description candidate_name use_gpt upstream
      = error_report "Missing required input: job_title" candidate_name company_name "" ∧
    (generate_prep_report job_title company_name job_description candidate_name use_gpt
        upstream).debug_note = some "Missing required input: job_title" ∧
    (generate_prep_report job_title company_name job_description candidate_name use_gpt
        upstream).behavioral_practice.questions = [] ∧
    (generate_prep_report job_title company_name job_description candidate_name use_gpt
        upstream).behavioral_practice.example_answers = [] ∧
    (generate_prep_report job_title company_name job_description candidate_name use_gpt
        upstream).technical_prep.questions = [] ∧
    (generate_prep_report job_title company_name job_description candidate_name use_gpt
        upstream).technical_prep.example_answers = [] := by
  simp only [generate_prep_report, h, if_pos rfl]
  exact ⟨rfl, rfl, rfl, rfl, rfl, rfl⟩

/-- Witness for C10 at a whitespace-only job title. -/
theorem claim_C10_witness :
    pyStrip ((some "   ").getD "") = "" ∧
    (generate_prep_report (some "   ") (some "Acme") (some "desc") (some "Bob") true
        (.ok []) = error_report "Missing required input: job_title" (some "Bob") (some "Acme") "" ∧
      (generate_prep_report (some "   ") (some "Acme") (some "desc") (some "Bob") true
          (.ok [])).debug_note = some "Missing required input: job_title" ∧
      (generate_prep_report (some "   ") (some "Acme") (some "desc") (some "Bob") true
          (.ok [])).behavioral_practice.questions = [] ∧
      (generate_prep_report (some "   ") (some "Acme") (some "desc") (some "Bob") true
          (.ok [])).behavioral_practice.example_answers = [] ∧
      (generate_prep_report (some "   ") (some "Acme") (some "desc") (some "Bob") true
          (.ok [])).technical_prep.questions = [] ∧
      (generate_prep_report (some "   ") (some "Acme") (some "desc") (some "Bob") true
          (.ok [])).technical_prep.example_answers = []) :=
  ⟨by decide, claim_C10 (some "   ") (some "Acme") (some "desc") (some "Bob") true (.ok [])
    (by decide)⟩

/-! ## Claim C4: upstream failure path of the report generator -/

/-- **C4 (counterexample).** The claim says that on an upstream failure the
generator returns the offline skeleton, whose two Q/A sections have *empty*
`questions` and `example_answers` lists.  In the source the exception
handler applies `_enforce_exact_qna_counts` to the skeleton before
returning it, so both sections come back with exactly 6 questions (the
default banks) and 6 synthesized answers — not empty lists. -/
theorem claim_C4_counterexample :
    (generate_prep_report (some "Engineer") Option.none Option.none Option.none true
        (.error "boom")).behavioral_practice.questions = default_beh_q ∧
    (generate_prep_report (some "Engineer") Option.none Option.none Option.none true
        (.error "boom")).technical_prep.questions = default_tech_q ∧
    (generate_prep_report (some "Engineer") Option.none Option.none Option.none true
        (.error "boom")).behavioral_practice.example_answers.length = 6 ∧
    (generate_prep_report (some "Engineer") Option.none Option.none Option.none true
        (.error "boom")).technical_prep.example_answers.length = 6 := by
  decide

/-- **C4 (amended).** When the upstream report-generation call fails, the
generator skips the coercion step (`_normalize_prep_report`), builds the
offline skeleton, records the error in `debug_note`, and then *does* apply
cardinality enforcement to it, so the returned report has exactly 6
questions (the fixed default banks) and 6 aligned example answers in each
section rather than empty lists. -/
theorem claim_C4_amended (job_title company_name job_description candidate_name : Option String)
    (e : String) (h : pyStrip (job_title.getD "") ≠ "") :
    generate_prep_report job_title company_name job_description candidate_name true (.error e)
      = enforce_exact_qna_counts
          { local_fallback_prep_report (pyStrip (job_title.getD ""))
              company_name job_description candidate_name with
            debug_note :=
              some ("GPT generation failed, fallback mode used. Error: " ++ e) } ∧
    (generate_prep_report job_title company_name job_description candidate_name true
        (.error e)).behavioral_practice.questions = default_beh_q ∧
    (generate_prep_report job_title company_name job_description candidate_name true
        (.error e)).technical_prep.questions = default_tech_q ∧
    (generate_prep_report job_title company_name job_description candidate_name true
        (.error e)).behavioral_practice.example_answers.map (fun ex => ex.question)
      = default_beh_q ∧
    (generate_prep_report job_title company_name job_description candidate_name true
        (.error e)).technical_prep.example_answers.map (fun ex => ex.question)
      = default_tech_q := by
  have hq : ∀ r : PrepReport, r.behavioral_practice.questions = [] →
      r.technical_prep.questions = [] →
      (enforce_exact_qna_counts r).behavioral_practice.questions = default_beh_q ∧
      (enforce_exact_qna_counts r).technical_prep.questions = default_tech_q := by
    intro r h1 h2
    unfold enforce_exact_qna_counts
    rw [h1, h2]
    exact ⟨rfl, rfl⟩
  simp only [generate_prep_report, if_neg h, Bool.not_true, Bool.false_eq_true, if_false]
  refine ⟨trivial, ?_, ?_, ?_, ?_⟩
  · exact (hq _ rfl rfl).1
  · exact (hq _ rfl rfl).2
  · unfold enforce_exact_qna_counts
    rw [align_answers_map_question]
    show ((([] : List String) ++ default_beh_q).take 6) = default_beh_q
    decide
  · unfold enforce_exact_qna_counts
    rw [align_answers_map_question]
    show ((([] : List String) ++ default_tech_q).take 6) = default_tech_q
    decide

/-- Witness for C4 at a concrete failing upstream call. -/
theorem claim_C4_witness :
    pyStrip ((some "Engineer").getD "") ≠ "" ∧
    (generate_prep_report (some "Engineer") (some "Acme") Option.none Option.none true
        (.error "timeout")
      = enforce_exact_qna_counts
          { local_fallback_prep_report (pyStrip ((some "Engineer").getD ""))
              (some "Acme") Option.none Option.none with
            debug_note :=
              some ("GPT generation failed, fallback mode used. Error: " ++ "timeout") } ∧
      (generate_prep_report (some "Engineer") (some "Acme") Option.none Option.none true
          (.error "timeout")).behavioral_practice.questions = default_beh_q ∧
      (generate_prep_report (some "Engineer") (some "Acme") Option.none Option.none true
          (.error "timeout")).technical_prep.questions = default_tech_q ∧
      (generate_prep_report (some "Engineer") (some "Acme") Option.none Option.none true
          (.error "timeout")).behavioral_practice.example_answers.map (fun ex => ex.question)
        = default_beh_q ∧
      (generate_prep_report (some "Engineer") (some "Acme") Option.none Option.none true
          (.error "timeout")).technical_prep.example_answers.map (fun ex => ex.question)
        = default_tech_q) :=
  ⟨by decide, claim_C4_amended (some "Engineer") (some "Acme") Option.none Option.none
    "timeout" (by decide)⟩

/-! ## Claim C2: no fallback in the `/answer` route -/

/-- **C2 (counterexample).** The claim says a failing remote rubric
evaluation falls back to the local evaluator so the user always receives an
evaluation record.  In the source the `/answer` route wraps the remote call
in no `try`/`except`; at this concrete request with a timed-out remote
call, the response is the global handler's hard failure
`("Internal server error", 500)`, not an evaluation record. -/
theorem claim_C2_counterexample :
    answer_route (some "I led a migration project.") (some "7")
        (fun _ => some ⟨"Tell me about a time you led a project.", Option.none⟩)
        (.error "Request timed out")
      = .serverError "Internal server error" 500 := by
  decide

/-- **C2 (amended).** When the remote rubric call raises in the `/answer`
route (after the form and question-lookup guards pass), no fallback runs:
the exception reaches the global error handler, which returns the hard
failure `("Internal server error", 500)`; `evaluate_answer` is never
invoked and no evaluation record is emitted. -/
theorem claim_C2_amended (form_answer form_question_id : Option String)
    (lookup_daily : String → Option DailyQuestion) (dq : DailyQuestion) (e : String)
    (h1 : pyStrip (form_answer.getD "") ≠ "")
    (h2 : optTruthy form_question_id = true)
    (h3 : lookup_daily (form_question_id.getD "") = some dq) :
    answer_route form_answer form_question_id lookup_daily (.error e)
      = .serverError "Internal server error" 500 := by
  simp only [answer_route, if_neg h1, h2, Bool.not_true, Bool.false_eq_true, if_false, h3]

/-- Witness for C2's amended form at a concrete request. -/
theorem claim_C2_witness :
    pyStrip ((some "I took ownership of a launch.").getD "") ≠ "" ∧
    optTruthy (some "3") = true ∧
    (fun (_ : String) => some (⟨"Describe a launch you owned.", some "An ideal answer."⟩ :
        DailyQuestion)) ((some "3").getD "") = some ⟨"Describe a launch you owned.", some "An ideal answer."⟩ ∧
    answer_route (some "I took ownership of a launch.") (some "3")
        (fun _ => some ⟨"Describe a launch you owned.", some "An ideal answer."⟩)
        (.error "rate limited")
      = .serverError "Internal server error" 500 :=
  ⟨by decide, by decide, rfl,
    claim_C2_amended (some "I took ownership of a launch.") (some "3")
      (fun _ => some ⟨"Describe a launch you owned.", some "An ideal answer."⟩)
      ⟨"Describe a launch you owned.", some "An ideal answer."⟩ "rate limited"
      (by decide) (by decide) rfl⟩

/-! ## Helper lemmas: score bounds -/

lemma clamp_mem (x : ℝ) : 0 ≤ max 0 (min 100 x) ∧ max 0 (min 100 x) ≤ 100 :=
  ⟨le_max_left 0 _, max_le (by norm_num) (min_le_left _ _)⟩

lemma pyRound2R_mem (x : ℝ) (h0 : 0 ≤ x) (h1 : x ≤ 100) :
    0 ≤ pyRound2R x ∧ pyRound2R x ≤ 100 := by
  unfold pyRound2R
  constructor
  · apply div_nonneg _ (by norm_num)
    have : (0:ℤ) ≤ ⌊x * 100 + 1/2⌋ := Int.floor_nonneg.mpr (by linarith)
    exact_mod_cast this
  · rw [div_le_iff (by norm_num : (0:ℝ) < 100)]
    have : ⌊x * 100 + 1/2⌋ < 10001 := by
      rw [Int.floor_lt]
      push_cast
      linarith
    have h2 : ⌊x * 100 + 1/2⌋ ≤ 10000 := by omega
    calc ((⌊x * 100 + 1/2⌋ : ℤ) : ℝ) ≤ (10000 : ℤ) := by exact_mod_cast h2
    _ = 100 * 100 := by norm_num

lemma pyRound2_mem (x : ℚ) (h0 : 0 ≤ x) (h1 : x ≤ 100) :
    0 ≤ pyRound2 x ∧ pyRound2 x ≤ 100 := by
  unfold pyRound2
  constructor
  · apply div_nonneg _ (by norm_num)
    have : (0:ℤ) ≤ ⌊x * 100 + 1/2⌋ := Int.floor_nonneg.mpr (by linarith)
    exact_mod_cast this
  · rw [div_le_iff (by norm_num : (0:ℚ) < 100)]
    have : ⌊x * 100 + 1/2⌋ < 10001 := by
      rw [Int.floor_lt]
      push_cast
      linarith
    have h2 : ⌊x * 100 + 1/2⌋ ≤ 10000 := by omega
    calc ((⌊x * 100 + 1/2⌋ : ℤ) : ℚ) ≤ (10000 : ℤ) := by exact_mod_cast h2
    _ = 100 * 100 := by norm_num

lemma score_relevance_mem (encode : String → List ℝ) (q ia ua : String) :
    0 ≤ score_relevance encode q ia ua ∧ score_relevance encode q ia ua ≤ 100 :=
  clamp_mem _

lemma score_confidence_mem (sentiment : String → String × ℝ) (ua : String) :
    0 ≤ score_confidence sentiment ua ∧ score_confidence sentiment ua ≤ 100 :=
  clamp_mem _

/-! ## Claim C7: the relevance formula -/

/-- **C7.** `score_relevance` equals
`clamp₀..₁₀₀(((0.7·cos(ideal,user) + 0.3·cos(question,user)) + 1)/2 · 100)`,
where the cosine is `dot/(‖u‖·‖v‖)` except that it is 0 whenever either
vector has zero norm, so the division-by-zero branch can never be taken. -/
theorem claim_C7 :
    (∀ (encode : String → List ℝ) (question ideal_answer user_answer : String),
      score_relevance encode question ideal_answer user_answer
        = max 0 (min 100
            (((0.7 * cosine_similarity (encode ideal_answer) (encode user_answer)
               + 0.3 * cosine_similarity (encode question) (encode user_answer)) + 1)
              / 2 * 100))) ∧
    (∀ v1 v2 : List ℝ, normList v1 = 0 ∨ normList v2 = 0 →
      cosine_similarity v1 v2 = 0) ∧
    (∀ v1 v2 : List ℝ, ¬(normList v1 = 0 ∨ normList v2 = 0) →
      cosine_similarity v1 v2 = dotList v1 v2 / (normList v1 * normList v2)) := by
  refine ⟨fun _ _ _ _ => rfl, fun v1 v2 h => ?_, fun v1 v2 h => ?_⟩
  · unfold cosine_similarity
    exact if_pos h
  · unfold cosine_similarity
    exact if_neg h

/-- Witness for C7: a zero-norm pair takes the guarded branch, a
nonzero-norm pair takes the quotient branch. -/
theorem claim_C7_witness :
    (normList [(0:ℝ)] = 0 ∨ normList [(1:ℝ)] = 0) ∧
    cosine_similarity [(0:ℝ)] [(1:ℝ)] = 0 ∧
    ¬(normList [(3:ℝ)] = 0 ∨ normList [(4:ℝ)] = 0) ∧
    cosine_similarity [(3:ℝ)] [(4:ℝ)]
      = dotList [(3:ℝ)] [(4:ℝ)] / (normList [(3:ℝ)] * normList [(4:ℝ)]) := by
  have h0 : normList [(0:ℝ)] = 0 := by
    simp [normList, dotList]
  have h3 : normList [(3:ℝ)] ≠ 0 := by
    simp only [normList, dotList, List.zipWith, List.sum_cons, List.sum_nil, add_zero]
    rw [show (3:ℝ) * 3 = 9 by norm_num]
    exact Real.sqrt_ne_zero'.mpr (by norm_num)
  have h4 : normList [(4:ℝ)] ≠ 0 := by
    simp only [normList, dotList, List.zipWith, List.sum_cons, List.sum_nil, add_zero]
    rw [show (4:ℝ) * 4 = 16 by norm_num]
    exact Real.sqrt_ne_zero'.mpr (by norm_num)
  have hne : ¬(normList [(3:ℝ)] = 0 ∨ normList [(4:ℝ)] = 0) := by
    push_neg
    exact ⟨h3, h4⟩
  exact ⟨Or.inl h0, claim_C7.2.1 _ _ (Or.inl h0), hne, claim_C7.2.2 _ _ hne⟩

/-! ## Claim C3: the clamp invariant -/

/-- **C3 (counterexample).** The claim says every record of either
evaluation path has all three scores in [0,100] "including whatever numeric
values the remote service returns".  The remote path never clamps: an
upstream `relevance_score` of 150 lands in the record as 150. -/
theorem claim_C3_counterexample :
    (gpt_evaluate_answer ⟨some 150, some 50, Option.none, [], []⟩
        "Q" "I" "U").relevance_score = 150 ∧
    ¬((gpt_evaluate_answer ⟨some 150, some 50, Option.none, [], []⟩
        "Q" "I" "U").relevance_score ≤ 100) := by
  have h : (gpt_evaluate_answer ⟨some 150, some 50, Option.none, [], []⟩
      "Q" "I" "U").relevance_score = 150 := by
    show pyRound2 ((some (150:ℚ)).getD 0) = 150
    rw [Option.getD_some, pyRound2]
    norm_num
  refine ⟨h, ?_⟩
  rw [h]
  norm_num

/-- **C3 (amended).** The local path always clamps: every record produced
by `evaluate_answer` has `relevance_score`, `confidence_score` and
`final_score` in [0,100] for all inputs (including empty and
whitespace-only answers, which are just particular strings here).  The
remote path copies the upstream numbers (rounded to two decimals) without
clamping, so its record scores lie in [0,100] exactly when the
upstream-supplied values do. -/
theorem claim_C3_amended :
    (∀ (encode : String → List ℝ) (sentiment : String → String × ℝ)
        (q ia ua : String),
      0 ≤ (evaluate_answer encode sentiment q ia ua).relevance_score ∧
      (evaluate_answer encode sentiment q ia ua).relevance_score ≤ 100 ∧
      0 ≤ (evaluate_answer encode sentiment q ia ua).confidence_score ∧
      (evaluate_answer encode sentiment q ia ua).confidence_score ≤ 100 ∧
      0 ≤ (evaluate_answer encode sentiment q ia ua).final_score ∧
      (evaluate_answer encode sentiment q ia ua).final_score ≤ 100) ∧
    (∀ (resp : GptResponse) (q ia ua : String),
      0 ≤ resp.relevance_score.getD 0 → resp.relevance_score.getD 0 ≤ 100 →
      0 ≤ resp.confidence_score.getD 0 → resp.confidence_score.getD 0 ≤ 100 →
      (∀ f, resp.final_score = some f → 0 ≤ f ∧ f ≤ 100) →
      0 ≤ (gpt_evaluate_answer resp q ia ua).relevance_score ∧
      (gpt_evaluate_answer resp q ia ua).relevance_score ≤ 100 ∧
      0 ≤ (gpt_evaluate_answer resp q ia ua).confidence_score ∧
      (gpt_evaluate_answer resp q ia ua).confidence_score ≤ 100 ∧
      0 ≤ (gpt_evaluate_answer resp q ia ua).final_score ∧
      (gpt_evaluate_answer resp q ia ua).final_score ≤ 100) := by
  constructor
  · intro encode sentiment q ia ua
    obtain ⟨hr0, hr1⟩ := score_relevance_mem encode q ia ua
    obtain ⟨hc0, hc1⟩ := score_confidence_mem sentiment ua
    obtain ⟨fr0, fr1⟩ := pyRound2R_mem _ hr0 hr1
    obtain ⟨fc0, fc1⟩ := pyRound2R_mem _ hc0 hc1
    obtain ⟨ff0, ff1⟩ := pyRound2R_mem
      (0.6 * score_relevance encode q ia ua + 0.4 * score_confidence sentiment ua)
      (by linarith) (by linarith)
    exact ⟨fr0, fr1, fc0, fc1, ff0, ff1⟩
  · intro resp q ia ua hr0 hr1 hc0 hc1 hf
    obtain ⟨fr0, fr1⟩ := pyRound2_mem _ hr0 hr1
    obtain ⟨fc0, fc1⟩ := pyRound2_mem _ hc0 hc1
    have hfin : 0 ≤ pyRound2 (match resp.final_score with
        | some f => f
        | Option.none => 0.7 * resp.relevance_score.getD 0
            + 0.3 * resp.confidence_score.getD 0) ∧
        pyRound2 (match resp.final_score with
        | some f => f
        | Option.none => 0.7 * resp.relevance_score.getD 0
            + 0.3 * resp.confidence_score.getD 0) ≤ 100 := by
      cases hcase : resp.final_score with
      | none =>
        simp only
        exact pyRound2_mem _ (by linarith) (by linarith)
      | some f =>
        obtain ⟨hf0, hf1⟩ := hf f hcase
        simp only
        exact pyRound2_mem _ hf0 hf1
    exact ⟨fr0, fr1, fc0, fc1, hfin.1, hfin.2⟩

/-- Witness for C3's amended form: an in-range remote reply yields an
in-range record. -/
theorem claim_C3_witness :
    (0 ≤ ((⟨some 80, some 70, some 75, [], []⟩ : GptResponse).relevance_score.getD 0) ∧
     (⟨some 80, some 70, some 75, [], []⟩ : GptResponse).relevance_score.getD 0 ≤ 100 ∧
     0 ≤ ((⟨some 80, some 70, some 75, [], []⟩ : GptResponse).confidence_score.getD 0) ∧
     (⟨some 80, some 70, some 75, [], []⟩ : GptResponse).confidence_score.getD 0 ≤ 100 ∧
     (∀ f, (⟨some 80, some 70, some 75, [], []⟩ : GptResponse).final_score = some f →
        0 ≤ f ∧ f ≤ 100)) ∧
    (0 ≤ (gpt_evaluate_answer ⟨some 80, some 70, some 75, [], []⟩ "Q" "I" "U").relevance_score ∧
     (gpt_evaluate_answer ⟨some 80, some 70, some 75, [], []⟩ "Q" "I" "U").relevance_score ≤ 100 ∧
     0 ≤ (gpt_evaluate_answer ⟨some 80, some 70, some 75, [], []⟩ "Q" "I" "U").confidence_score ∧
     (gpt_evaluate_answer ⟨some 80, some 70, some 75, [], []⟩ "Q" "I" "U").confidence_score ≤ 100 ∧
     0 ≤ (gpt_evaluate_answer ⟨some 80, some 70, some 75, [], []⟩ "Q" "I" "U").final_score ∧
     (gpt_evaluate_answer ⟨some 80, some 70, some 75, [], []⟩ "Q" "I" "U").final_score ≤ 100) := by
  have hf : ∀ f, (⟨some 80, some 70, some 75, [], []⟩ : GptResponse).final_score = some f →
      0 ≤ f ∧ f ≤ 100 := by
    intro f hfeq
    have : f = 75 := by
      simpa using hfeq.symm
    rw [this]
    norm_num
  refine ⟨⟨by norm_num, by norm_num, by norm_num, by norm_num, hf⟩, ?_⟩
  exact claim_C3_amended.2 ⟨some 80, some 70, some 75, [], []⟩ "Q" "I" "U"
    (by norm_num) (by norm_num) (by norm_num) (by norm_num) hf

/-! ## Claim C8: the blending weights -/

/-- **C8 (counterexample).** The claim says the remote evaluator uses an
upstream-supplied `final_score` *verbatim*.  The source rounds it to two
decimals (`round(float(gpt_final), 2)`) like every score: an upstream
`final_score` of 88.888 lands in the record as 88.89, not 88.888. -/
theorem claim_C8_counterexample :
    (gpt_evaluate_answer ⟨some 50, some 50, some (88888/1000), [], []⟩
        "Q" "I" "U").final_score = 8889/100 ∧
    (8889/100 : ℚ) ≠ 88888/1000 := by
  constructor
  · show pyRound2 (match (some (88888/1000 : ℚ)) with
      | some f => f
      | Option.none => 0.7 * ((some (50:ℚ)).getD 0) + 0.3 * ((some (50:ℚ)).getD 0)) = 8889/100
    simp only [pyRound2]
    norm_num
  · norm_num

/-- **C8 (amended).** The two paths blend with different fixed weights, and
every stored score is rounded to two decimals: the local evaluator computes
`final_score = round₂(0.6·relevance + 0.4·confidence)`; the remote
evaluator stores `round₂(final_score)` of the upstream reply whenever the
reply contains one, and otherwise computes
`round₂(0.7·relevance + 0.3·confidence)` from the upstream scores. -/
theorem claim_C8_amended :
    (∀ (encode : String → List ℝ) (sentiment : String → String × ℝ)
        (q ia ua : String),
      (evaluate_answer encode sentiment q ia ua).final_score
        = pyRound2R (0.6 * score_relevance encode q ia ua
            + 0.4 * score_confidence sentiment ua)) ∧
    (∀ (resp : GptResponse) (q ia ua : String) (f : ℚ), resp.final_score = some f →
      (gpt_evaluate_answer resp q ia ua).final_score = pyRound2 f) ∧
    (∀ (resp : GptResponse) (q ia ua : String), resp.final_score = Option.none →
      (gpt_evaluate_answer resp q ia ua).final_score
        = pyRound2 (0.7 * resp.relevance_score.getD 0
            + 0.3 * resp.confidence_score.getD 0)) := by
  refine ⟨fun _ _ _ _ _ => rfl, fun resp q ia ua f hyp => ?_, fun resp q ia ua hyp => ?_⟩
  · show pyRound2 (match resp.final_score with
      | some f => f
      | Option.none => 0.7 * resp.relevance_score.getD 0
          + 0.3 * resp.confidence_score.getD 0) = pyRound2 f
    rw [hyp]
  · show pyRound2 (match resp.final_score with
      | some f => f
      | Option.none => 0.7 * resp.relevance_score.getD 0
          + 0.3 * resp.confidence_score.getD 0)
      = pyRound2 (0.7 * resp.relevance_score.getD 0 + 0.3 * resp.confidence_score.getD 0)
    rw [hyp]

/-- Witness for C8's amended form: both remote branches at concrete
replies. -/
theorem claim_C8_witness :
    (⟨some 60, some 80, some 62, [], []⟩ : GptResponse).final_score = some 62 ∧
    (gpt_evaluate_answer ⟨some 60, some 80, some 62, [], []⟩ "Q" "I" "U").final_score
      = pyRound2 62 ∧
    (⟨some 60, some 80, Option.none, [], []⟩ : GptResponse).final_score = Option.none ∧
    (gpt_evaluate_answer ⟨some 60, some 80, Option.none, [], []⟩ "Q" "I" "U").final_score
      = pyRound2 (0.7 * ((⟨some 60, some 80, Option.none, [], []⟩ : GptResponse).relevance_score.getD 0)
          + 0.3 * ((⟨some 60, some 80, Option.none, [], []⟩ : GptResponse).confidence_score.getD 0)) :=
  ⟨rfl, claim_C8_amended.2.1 ⟨some 60, some 80, some 62, [], []⟩ "Q" "I" "U" 62 rfl,
   rfl, claim_C8_amended.2.2 ⟨some 60, some 80, Option.none, [], []⟩ "Q" "I" "U" rfl⟩

/-! ## Helper lemmas: token removal and whitespace collapse -/

/-- The four STAR-phase tokens with their marker emoji (each token's first
character). -/
def starTokens : List (String × Char) :=
  [("🔴Situation:", '🔴'), ("🔵Task:", '🔵'), ("🟢Action:", '🟢'), ("🟣Result:", '🟣')]

/-- Two consecutive whitespace characters somewhere in the list? -/
def hasAdjacentWs : List Char → Bool
  | c1 :: c2 :: rest => (pyWs c1 && pyWs c2) || hasAdjacentWs (c2 :: rest)
  | _ => false

lemma leadsWith_head {p c : Char} {ps cs : List Char}
    (h : leadsWith (p :: ps) (c :: cs) = true) : p = c := by
  simp only [leadsWith, Bool.and_eq_true, decide_eq_true_eq] at h
  exact h.1

lemma count_removeGo_le (c p : Char) (ps : List Char) :
    ∀ (s : Nat) (l : List Char), (removeGo p ps s l).count c ≤ l.count c := by
  intro s l
  induction l generalizing s with
  | nil => cases s <;> simp [removeGo]
  | cons x xs ih =>
    cases s with
    | succ n =>
      calc (removeGo p ps n xs).count c ≤ xs.count c := ih n
      _ ≤ (x :: xs).count c := by rw [List.count_cons]; omega
    | zero =>
      rw [removeGo]
      split
      · calc (removeGo p ps ps.length xs).count c ≤ xs.count c := ih _
        _ ≤ (x :: xs).count c := by rw [List.count_cons]; omega
      · rw [List.count_cons, List.count_cons]
        have := ih 0
        omega

lemma count_removeGo_lt (c : Char) (ps : List Char) :
    ∀ l : List Char, hasSubstrL c ps l = true →
      (removeGo c ps 0 l).count c < l.count c := by
  intro l
  induction l with
  | nil => intro h; simp [hasSubstrL] at h
  | cons x xs ih =>
    intro h
    rw [hasSubstrL, Bool.or_eq_true] at h
    rw [removeGo]
    by_cases hl : leadsWith (c :: ps) (x :: xs) = true
    · rw [if_pos hl]
      have hx : c = x := leadsWith_head hl
      have h1 : (removeGo c ps ps.length xs).count c ≤ xs.count c :=
        count_removeGo_le c c ps ps.length xs
      rw [List.count_cons, if_pos (by rw [hx]; exact beq_self_eq_true x)]
      omega
    · rw [if_neg hl]
      have hs : hasSubstrL c ps xs = true := by
        rcases h with h | h
        · exact absurd h hl
        · exact h
      have := ih hs
      rw [List.count_cons, List.count_cons]
      omega

lemma count_one_of_hasSubstrL (c : Char) (ps : List Char) :
    ∀ l : List Char, hasSubstrL c ps l = true → 1 ≤ l.count c := by
  intro l
  induction l with
  | nil => intro h; simp [hasSubstrL] at h
  | cons x xs ih =>
    intro h
    rw [hasSubstrL, Bool.or_eq_true] at h
    rcases h with h | h
    · have hx : c = x := leadsWith_head h
      rw [List.count_cons, if_pos (by rw [hx]; exact beq_self_eq_true x)]
      omega
    · have := ih h
      rw [List.count_cons]
      omega

lemma count_stripL_le (c : Char) (l : List Char) : (stripL l).count c ≤ l.count c := by
  unfold stripL
  calc (((l.dropWhile pyWs).reverse.dropWhile pyWs).reverse).count c
      = ((l.dropWhile pyWs).reverse.dropWhile pyWs).count c := List.count_reverse _ _
  _ ≤ (l.dropWhile pyWs).reverse.count c :=
      ((l.dropWhile pyWs).reverse.dropWhile_sublist pyWs).count_le c
  _ = (l.dropWhile pyWs).count c := List.count_reverse _ _
  _ ≤ l.count c := (l.dropWhile_sublist pyWs).count_le c

lemma count_joinSpL (c : Char) (hc : c ≠ ' ') :
    ∀ chs : List (List Char), (joinSpL chs).count c = (chs.map (List.count c)).sum := by
  intro chs
  induction chs with
  | nil => simp [joinSpL]
  | cons x rest ih =>
    cases rest with
    | nil => simp [joinSpL]
    | cons y t =>
      rw [joinSpL, List.count_append, List.count_cons, ih]
      simp only [List.map_cons, List.sum_cons]
      have : (' ' = c) = False := by
        simp [Ne.symm hc]
      rw [if_neg (by simpa using Ne.symm hc)]
      ring

lemma count_splitGo_sum (c : Char) :
    ∀ (l cur : List Char),
      (((splitGo cur l).map (List.count c)).sum : ℕ) ≤ cur.count c + l.count c := by
  intro l
  induction l with
  | nil =>
    intro cur
    rw [splitGo]
    split
    · simp
    · simp [List.count_reverse]
  | cons x xs ih =>
    intro cur
    rw [splitGo]
    by_cases hx : pyWs x = true
    · rw [if_pos hx]
      split
      · calc ((splitGo [] xs).map (List.count c)).sum
            ≤ ([] : List Char).count c + xs.count c := ih []
        _ ≤ cur.count c + (x :: xs).count c := by
            rw [List.count_cons]
            simp
            omega
      · simp only [List.map_cons, List.sum_cons, List.count_reverse]
        have := ih ([] : List Char)
        rw [List.count_cons]
        simp at this
        omega
    · rw [if_neg hx]
      calc ((splitGo (x :: cur) xs).map (List.count c)).sum
          ≤ (x :: cur).count c + xs.count c := ih (x :: cur)
      _ = cur.count c + (x :: xs).count c := by
          rw [List.count_cons, List.count_cons]
          omega

lemma data_mk (l : List Char) : (String.mk l).data = l := rfl

lemma joinsplit_data (s : String) :
    (pyJoinSp (pySplitWs s)).data = joinSpL (splitGo [] s.data) := by
  simp only [pyJoinSp, pySplitWs, data_mk, List.map_map]
  have : (String.data ∘ String.mk) = id := by
    funext l
    rfl
  rw [this, List.map_id]

lemma countCh_joinsplit_le (c : Char) (hc : c ≠ ' ') (s : String) :
    countCh c (pyJoinSp (pySplitWs s)) ≤ countCh c s := by
  unfold countCh
  rw [joinsplit_data, count_joinSpL c hc]
  have := count_splitGo_sum c s.data []
  simpa using this

lemma countCh_pyStrip_le (c : Char) (s : String) : countCh c (pyStrip s) ≤ countCh c s :=
  count_stripL_le c s.data

lemma countCh_pyRemoveAll_le (c : Char) (pat s : String) :
    countCh c (pyRemoveAll pat s) ≤ countCh c s := by
  unfold pyRemoveAll
  cases hp : pat.data with
  | nil => exact le_refl _
  | cons p ps => exact count_removeGo_le c p ps 0 s.data

lemma countCh_pyRemoveAll_lt (p : Char) (ps : List Char) (pat s : String)
    (hpat : pat.data = p :: ps) (hsub : pyHasSubstr pat s = true) :
    countCh p (pyRemoveAll pat s) < countCh p s := by
  unfold pyRemoveAll
  rw [hpat]
  unfold pyHasSubstr at hsub
  rw [hpat] at hsub
  exact count_removeGo_lt p ps s.data hsub

lemma pyHasSubstr_count (p : Char) (ps : List Char) (pat s : String)
    (hpat : pat.data = p :: ps) (hsub : pyHasSubstr pat s = true) :
    1 ≤ countCh p s := by
  unfold pyHasSubstr at hsub
  rw [hpat] at hsub
  exact count_one_of_hasSubstrL p ps s.data hsub

lemma no_substr_of_count_zero (p : Char) (ps : List Char) (pat s : String)
    (hpat : pat.data = p :: ps) (hcount : countCh p s = 0) :
    pyHasSubstr pat s = false := by
  by_contra h
  have : pyHasSubstr pat s = true := by
    revert h
    cases pyHasSubstr pat s <;> simp
  have := pyHasSubstr_count p ps pat s hpat this
  omega

lemma hasAdjacentWs_of_all_nonWs :
    ∀ l : List Char, (∀ c ∈ l, pyWs c = false) → hasAdjacentWs l = false := by
  intro l
  induction l with
  | nil => intro _; rfl
  | cons c cs ih =>
    intro h
    cases cs with
    | nil => rfl
    | cons c2 t =>
      rw [hasAdjacentWs]
      have h1 : pyWs c = false := h c (by simp)
      have h2 : hasAdjacentWs (c2 :: t) = false := ih (fun x hx => h x (by simp [hx]))
      rw [h1, h2]
      rfl

lemma hasAdjacentWs_append (a b : List Char) (ha : ∀ c ∈ a, pyWs c = false)
    (hb : hasAdjacentWs b = false) : hasAdjacentWs (a ++ b) = false := by
  induction a with
  | nil => simpa using hb
  | cons c cs ih =>
    have hc : pyWs c = false := ha c (by simp)
    have ih2 : hasAdjacentWs (cs ++ b) = false := ih (fun x hx => ha x (by simp [hx]))
    cases cs with
    | cons c2 t =>
      rw [List.cons_append] at ih2
      show ((pyWs c && pyWs c2) || hasAdjacentWs (c2 :: (t ++ b))) = false
      rw [hc, ih2]
      rfl
    | nil =>
      cases b with
      | nil => rfl
      | cons b0 bs =>
        show ((pyWs c && pyWs b0) || hasAdjacentWs (b0 :: bs)) = false
        rw [hc, hb]
        rfl

lemma splitGo_chunks_wf :
    ∀ (l cur : List Char), (∀ c ∈ cur, pyWs c = false) →
      ∀ ch ∈ splitGo cur l, ch ≠ [] ∧ ∀ c ∈ ch, pyWs c = false := by
  intro l
  induction l with
  | nil =>
    intro cur hcur ch hch
    rw [splitGo] at hch
    split at hch
    · simp at hch
    · rename_i hne
      simp only [List.mem_singleton] at hch
      subst hch
      refine ⟨by simpa [List.isEmpty_iff] using hne, ?_⟩
      intro c hc
      exact hcur c (List.mem_reverse.mp hc)
  | cons x xs ih =>
    intro cur hcur ch hch
    rw [splitGo] at hch
    by_cases hx : pyWs x = true
    · rw [if_pos hx] at hch
      split at hch
      · exact ih [] (by simp) ch hch
      · rename_i hne
        simp only [List.mem_cons] at hch
        rcases hch with hch | hch
        · subst hch
          refine ⟨by simpa [List.isEmpty_iff] using hne, ?_⟩
          intro c hc
          exact hcur c (List.mem_reverse.mp hc)
        · exact ih [] (by simp) ch hch
    · rw [if_neg hx] at hch
      refine ih (x :: cur) ?_ ch hch
      intro c hc
      rcases List.mem_cons.mp hc with hc | hc
      · subst hc
        simpa using hx
      · exact hcur c hc

lemma joinSpL_head_nonWs :
    ∀ chs : List (List Char), (∀ ch ∈ chs, ch ≠ [] ∧ ∀ c ∈ ch, pyWs c = false) →
      ∀ c0 cs0, joinSpL chs = c0 :: cs0 → pyWs c0 = false := by
  intro chs hchs c0 cs0 hj
  cases chs with
  | nil => simp [joinSpL] at hj
  | cons x rest =>
    obtain ⟨hxne, hxnw⟩ := hchs x (by simp)
    cases rest with
    | nil =>
      rw [joinSpL] at hj
      apply hxnw
      rw [hj]
      simp
    | cons y t =>
      rw [joinSpL] at hj
      cases x with
      | nil => exact absurd rfl hxne
      | cons xc xt =>
        rw [List.cons_append] at hj
        injection hj with h1 h2
        rw [← h1]
        exact hxnw xc (by simp)

lemma hasAdjacentWs_joinSpL :
    ∀ chs : List (List Char), (∀ ch ∈ chs, ch ≠ [] ∧ ∀ c ∈ ch, pyWs c = false) →
      hasAdjacentWs (joinSpL chs) = false := by
  intro chs
  induction chs with
  | nil => intro _; rfl
  | cons x rest ih =>
    intro h
    obtain ⟨hxne, hxnw⟩ := h x (by simp)
    cases rest with
    | nil => exact hasAdjacentWs_of_all_nonWs x hxnw
    | cons y t =>
      rw [joinSpL]
      apply hasAdjacentWs_append _ _ hxnw
      have hrest : ∀ ch ∈ y :: t, ch ≠ [] ∧ ∀ c ∈ ch, pyWs c = false :=
        fun ch hch => h ch (by simp [hch])
      have hj : hasAdjacentWs (joinSpL (y :: t)) = false := ih hrest
      cases hjs : joinSpL (y :: t) with
      | nil => rfl
      | cons j0 js =>
        rw [hasAdjacentWs]
        have hj0 : pyWs j0 = false := joinSpL_head_nonWs (y :: t) hrest j0 js hjs
        rw [hj0, ← hjs, hj]
        rfl

/-- The scrubbed answer never contains two adjacent whitespace characters:
the `" ".join(text.split())` step collapses all whitespace runs. -/
lemma scrub_answer_collapses (a : String) :
    hasAdjacentWs (scrub_answer a).data = false := by
  unfold scrub_answer
  split
  · rename_i h
    rw [h]
    rfl
  · rw [joinsplit_data]
    exact hasAdjacentWs_joinSpL _ (splitGo_chunks_wf _ [] (by simp))

/-- Marker-count monotonicity of the whole scrub (any non-space char). -/
lemma countCh_scrub_le (c : Char) (hc : c ≠ ' ') (a : String) :
    countCh c (scrub_answer a) ≤ countCh c a := by
  unfold scrub_answer
  split
  · exact le_refl _
  · refine le_trans (countCh_joinsplit_le c hc _) ?_
    refine le_trans (countCh_pyStrip_le c _) ?_
    refine le_trans (countCh_pyRemoveAll_le c _ _) ?_
    refine le_trans (countCh_pyStrip_le c _) ?_
    refine le_trans (countCh_pyRemoveAll_le c _ _) ?_
    refine le_trans (countCh_pyStrip_le c _) ?_
    refine le_trans (countCh_pyRemoveAll_le c _ _) ?_
    refine le_trans (countCh_pyStrip_le c _) ?_
    exact countCh_pyRemoveAll_le c _ _

/-- After scrubbing, an answer that contained `🔴Situation:` with exactly
one `🔴` marker has no `🔴` marker left. -/
lemma countCh_scrub_situation (a : String)
    (hsub : pyHasSubstr "🔴Situation:" a = true) (hcount : countCh '🔴' a = 1) :
    countCh '🔴' (scrub_answer a) = 0 := by
  have hlt : countCh '🔴' (pyRemoveAll "🔴Situation:" a) < countCh '🔴' a :=
    countCh_pyRemoveAll_lt '🔴' ['S', 'i', 't', 'u', 'a', 't', 'i', 'o', 'n', ':']
      "🔴Situation:" a rfl hsub
  rw [hcount] at hlt
  have h0 : countCh '🔴' (pyRemoveAll "🔴Situation:" a) = 0 := by omega
  unfold scrub_answer
  split
  · rename_i h
    rw [h] at hcount
    simp [countCh] at hcount
  · show countCh '🔴' (pyJoinSp (pySplitWs (pyStrip (pyRemoveAll "🟣Result:"
        (pyStrip (pyRemoveAll "🟢Action:" (pyStrip (pyRemoveAll "🔵Task:"
          (pyStrip (pyRemoveAll "🔴Situation:" a)))))))))) = 0
    have hchain : countCh '🔴' (pyJoinSp (pySplitWs (pyStrip (pyRemoveAll "🟣Result:"
        (pyStrip (pyRemoveAll "🟢Action:" (pyStrip (pyRemoveAll "🔵Task:"
          (pyStrip (pyRemoveAll "🔴Situation:" a))))))))))
        ≤ countCh '🔴' (pyRemoveAll "🔴Situation:" a) := by
      refine le_trans (countCh_joinsplit_le _ (by decide) _) ?_
      refine le_trans (countCh_pyStrip_le _ _) ?_
      refine le_trans (countCh_pyRemoveAll_le _ _ _) ?_
      refine le_trans (countCh_pyStrip_le _ _) ?_
      refine le_trans (countCh_pyRemoveAll_le _ _ _) ?_
      refine le_trans (countCh_pyStrip_le _ _) ?_
      refine le_trans (countCh_pyRemoveAll_le _ _ _) ?_
      exact countCh_pyStrip_le _ _
    omega

lemma countCh_pass_zero (t : String) (tk : String × Char) (htk : tk ∈ starTokens)
    (hsub : pyHasSubstr tk.1 t = true) (hcount : countCh tk.2 t = 1) :
    countCh tk.2 (pyStrip (pyRemoveAll tk.1 t)) = 0 := by
  have hstrip := countCh_pyStrip_le tk.2 (pyRemoveAll tk.1 t)
  simp only [starTokens, List.mem_cons, List.not_mem_nil, or_false] at htk
  rcases htk with rfl | rfl | rfl | rfl
  all_goals
    simp only at hsub hcount hstrip ⊢
  · have hlt := countCh_pyRemoveAll_lt '🔴' ['S', 'i', 't', 'u', 'a', 't', 'i', 'o', 'n', ':']
      "🔴Situation:" t rfl hsub
    omega
  · have hlt := countCh_pyRemoveAll_lt '🔵' ['T', 'a', 's', 'k', ':'] "🔵Task:" t rfl hsub
    omega
  · have hlt := countCh_pyRemoveAll_lt '🟢' ['A', 'c', 't', 'i', 'o', 'n', ':']
      "🟢Action:" t rfl hsub
    omega
  · have hlt := countCh_pyRemoveAll_lt '🟣' ['R', 'e', 's', 'u', 'l', 't', ':']
      "🟣Result:" t rfl hsub
    omega

lemma no_token_of_marker_zero (s : String) (tk : String × Char) (htk : tk ∈ starTokens)
    (hcount : countCh tk.2 s = 0) : pyHasSubstr tk.1 s = false := by
  simp only [starTokens, List.mem_cons, List.not_mem_nil, or_false] at htk
  rcases htk with rfl | rfl | rfl | rfl
  · exact no_substr_of_count_zero '🔴' ['S', 'i', 't', 'u', 'a', 't', 'i', 'o', 'n', ':']
      "🔴Situation:" s rfl hcount
  · exact no_substr_of_count_zero '🔵' ['T', 'a', 's', 'k', ':'] "🔵Task:" s rfl hcount
  · exact no_substr_of_count_zero '🟢' ['A', 'c', 't', 'i', 'o', 'n', ':']
      "🟢Action:" s rfl hcount
  · exact no_substr_of_count_zero '🟣' ['R', 'e', 's', 'u', 'l', 't', ':']
      "🟣Result:" s rfl hcount

set_option maxRecDepth 8000 in
lemma fallback_no_tokens (q : String) (b : Bool) :
    ∀ tk ∈ starTokens, pyHasSubstr tk.1 (make_fallback_answer q b).answer = false := by
  intro tk htk
  have hb : (make_fallback_answer q b).answer = (make_fallback_answer "" b).answer := by
    cases b <;> rfl
  rw [hb]
  simp only [starTokens, List.mem_cons, List.not_mem_nil, or_false] at htk
  rcases htk with rfl | rfl | rfl | rfl <;> cases b <;> decide

/-! ## Claim C6: STAR-token scrubbing -/

/-- A raw document whose upstream answer contains the `🔴Situation:` token
twice over, spliced so that one replacement pass leaves a token behind. -/
def c6doc : List (String × PyVal) :=
  [("behavioral_practice", .dict
      [("questions", .list [.str "q1"]),
       ("example_answers", .list
         [.dict [("question", .str "q1"),
                 ("answer", .str "🔴🔴Situation:Situation: We shipped the fix.")]])])]

set_option maxRecDepth 8000 in
/-- **C6 (counterexample).** The claim says that when an upstream answer
contains a STAR-phase token, the normalized answer does not contain that
token.  `str.replace` makes a single non-overlapping pass, so deletions can
splice a new occurrence: the upstream answer
`🔴🔴Situation:Situation: We shipped the fix.` contains `🔴Situation:`, and
the normalized answer `🔴Situation: We shipped the fix.` still contains it. -/
theorem claim_C6_counterexample :
    pyHasSubstr "🔴Situation:" "🔴🔴Situation:Situation: We shipped the fix." = true ∧
    ((normalize_path c6doc Option.none "role_focused").behavioral_practice.example_answers.map
        (fun ex => ex.answer)).head? = some "🔴Situation: We shipped the fix." ∧
    ((normalize_path c6doc Option.none "role_focused").behavioral_practice.example_answers.map
        (fun ex => pyHasSubstr "🔴Situation:" ex.answer)).head? = some true := by
  refine ⟨by decide, by decide, by decide⟩

set_option maxRecDepth 8000 in
/-- **C6 (amended).** Each phase token is removed by a single left-to-right
non-overlapping `str.replace` pass (in the fixed order Situation, Task,
Action, Result, stripping after each), and whitespace runs are collapsed by
`" ".join(text.split())`.  Consequently: (1) an answer that contains
`🔴Situation:` and holds exactly one `🔴` marker is token-free after
scrubbing (the original claim, restricted to non-spliced answers — the
counterexample's stray second marker is what breaks the general form);
(2) each single pass empties the marker count under the same condition;
(3) an answer without a token's marker cannot contain the token;
(4) scrubbing never increases a marker count; (5) the scrubbed answer never
has two adjacent whitespace characters; (6) every answer in an enforced
report is either the scrub of some incoming example's answer or a
synthesized fallback answer, which contains no token. -/
theorem claim_C6_amended :
    (∀ a : String, pyHasSubstr "🔴Situation:" a = true → countCh '🔴' a = 1 →
        pyHasSubstr "🔴Situation:" (scrub_answer a) = false) ∧
    (∀ (t : String) (tk : String × Char), tk ∈ starTokens →
        pyHasSubstr tk.1 t = true → countCh tk.2 t = 1 →
        countCh tk.2 (pyStrip (pyRemoveAll tk.1 t)) = 0) ∧
    (∀ (s : String) (tk : String × Char), tk ∈ starTokens →
        countCh tk.2 s = 0 → pyHasSubstr tk.1 s = false) ∧
    (∀ (a : String) (tk : String × Char), tk ∈ starTokens →
        countCh tk.2 (scrub_answer a) ≤ countCh tk.2 a) ∧
    (∀ a : String, hasAdjacentWs (scrub_answer a).data = false) ∧
    (∀ (report : PrepReport) (ex : QAExample),
      (ex ∈ (enforce_exact_qna_counts report).behavioral_practice.example_answers ∨
       ex ∈ (enforce_exact_qna_counts report).technical_prep.example_answers) →
      (∃ ex0 : QAExample,
          (ex0 ∈ report.behavioral_practice.example_answers ∨
           ex0 ∈ report.technical_prep.example_answers) ∧
          ex.answer = scrub_answer ex0.answer) ∨
      (∀ tk ∈ starTokens, pyHasSubstr tk.1 ex.answer = false)) := by
  refine ⟨?_, countCh_pass_zero, no_token_of_marker_zero, ?_, scrub_answer_collapses, ?_⟩
  · intro a hsub hcount
    exact no_substr_of_count_zero '🔴' ['S', 'i', 't', 'u', 'a', 't', 'i', 'o', 'n', ':']
      "🔴Situation:" _ rfl (countCh_scrub_situation a hsub hcount)
  · intro a tk htk
    have hsp : tk.2 ≠ ' ' := by
      simp only [starTokens, List.mem_cons, List.not_mem_nil, or_false] at htk
      rcases htk with rfl | rfl | rfl | rfl <;> decide
    exact countCh_scrub_le tk.2 hsp a
  · intro report ex hmem
    have key : ∀ (qs : List String) (amap : List QAExample) (b : Bool),
        ex ∈ align_answers qs amap b →
        (∃ ex0, ex0 ∈ amap ∧ ex.answer = scrub_answer ex0.answer) ∨
        (∀ tk ∈ starTokens, pyHasSubstr tk.1 ex.answer = false) := by
      intro qs amap b hmem2
      unfold align_answers at hmem2
      obtain ⟨q, _, hq⟩ := List.mem_map.mp hmem2
      cases hidx : index_get amap q with
      | some ex0 =>
        rw [hidx] at hq
        left
        refine ⟨ex0, ?_, ?_⟩
        · unfold index_get at hidx
          split at hidx
          · exact absurd hidx (by simp)
          · exact List.mem_reverse.mp (List.mem_of_find?_eq_some hidx)
        · rw [← hq]
          rfl
      | none =>
        rw [hidx] at hq
        right
        rw [← hq]
        exact fallback_no_tokens q b
    rcases hmem with hmem | hmem
    · rcases key _ _ _ hmem with ⟨ex0, hex0, hans⟩ | h
      · exact Or.inl ⟨ex0, Or.inl hex0, hans⟩
      · exact Or.inr h
    · rcases key _ _ _ hmem with ⟨ex0, hex0, hans⟩ | h
      · exact Or.inl ⟨ex0, Or.inr hex0, hans⟩
      · exact Or.inr h

set_option maxRecDepth 8000 in
/-- Witness for C6's amended form: concrete instances of each
hypothesis-bearing conjunct. -/
theorem claim_C6_witness :
    (pyHasSubstr "🔴Situation:" "🔴Situation: We reduced latency by half." = true ∧
     countCh '🔴' "🔴Situation: We reduced latency by half." = 1 ∧
     pyHasSubstr "🔴Situation:"
       (scrub_answer "🔴Situation: We reduced latency by half.") = false) ∧
    (("🔵Task:", '🔵') ∈ starTokens ∧
     pyHasSubstr "🔵Task:" "🔵Task: Ship the patch." = true ∧
     countCh '🔵' "🔵Task: Ship the patch." = 1 ∧
     countCh '🔵' (pyStrip (pyRemoveAll "🔵Task:" "🔵Task: Ship the patch.")) = 0) ∧
    (("🟢Action:", '🟢') ∈ starTokens ∧
     countCh '🟢' "We profiled the hot path." = 0 ∧
     pyHasSubstr "🟢Action:" "We profiled the hot path." = false) ∧
    (("🟣Result:", '🟣') ∈ starTokens ∧
     countCh '🟣' (scrub_answer "🟣Result:  done") ≤ countCh '🟣' "🟣Result:  done") ∧
    ((make_fallback_answer "Tell me about a time you dealt with ambiguity." false
        ∈ (enforce_exact_qna_counts
            (local_fallback_prep_report "x" Option.none Option.none
              Option.none)).behavioral_practice.example_answers ∨
      make_fallback_answer "Tell me about a time you dealt with ambiguity." false
        ∈ (enforce_exact_qna_counts
            (local_fallback_prep_report "x" Option.none Option.none
              Option.none)).technical_prep.example_answers) ∧
     ((∃ ex0 : QAExample,
          (ex0 ∈ (local_fallback_prep_report "x" Option.none Option.none
              Option.none).behavioral_practice.example_answers ∨
           ex0 ∈ (local_fallback_prep_report "x" Option.none Option.none
              Option.none).technical_prep.example_answers) ∧
          (make_fallback_answer "Tell me about a time you dealt with ambiguity."
              false).answer = scrub_answer ex0.answer) ∨
      (∀ tk ∈ starTokens, pyHasSubstr tk.1
        (make_fallback_answer "Tell me about a time you dealt with ambiguity."
          false).answer = false))) :=
  ⟨⟨by decide, by decide, claim_C6_amended.1 _ (by decide) (by decide)⟩,
   ⟨by decide, by decide, by decide,
    claim_C6_amended.2.1 _ ("🔵Task:", '🔵') (by decide) (by decide) (by decide)⟩,
   ⟨by decide, by decide,
    claim_C6_amended.2.2.1 _ ("🟢Action:", '🟢') (by decide) (by decide)⟩,
   ⟨by decide, claim_C6_amended.2.2.2.1 _ ("🟣Result:", '🟣') (by decide)⟩,
   ⟨Or.inl (by decide),
    claim_C6_amended.2.2.2.2.2 _ _ (Or.inl (by decide))⟩⟩

/-! ## Helper lemmas: strip idempotence and well-formed strings -/

lemma dropWhile_idem (p : Char → Bool) (l : List Char) :
    (l.dropWhile p).dropWhile p = l.dropWhile p := by
  induction l with
  | nil => rfl
  | cons c cs ih =>
    by_cases hc : p c = true
    · rw [List.dropWhile_cons_of_pos hc]
      exact ih
    · rw [List.dropWhile_cons_of_neg hc, List.dropWhile_cons_of_neg hc]

lemma dropWhile_eq_self_of_append (p : Char → Bool) (x y t : List Char)
    (h : x.dropWhile p = x) (hxy : x = y ++ t) : y.dropWhile p = y := by
  cases y with
  | nil => rfl
  | cons c ys =>
    rw [hxy, List.cons_append] at h
    by_cases hc : p c = true
    · rw [List.dropWhile_cons_of_pos hc] at h
      have hlen := congrArg List.length h
      rw [List.length_cons] at hlen
      have hle := ((ys ++ t).dropWhile_sublist p).length_le
      exact absurd hlen (by omega)
    · rw [List.dropWhile_cons_of_neg hc]

lemma stripL_idem (l : List Char) : stripL (stripL l) = stripL l := by
  set a := l.dropWhile pyWs with ha
  have hda : a.dropWhile pyWs = a := dropWhile_idem pyWs l
  set b' := (a.reverse.dropWhile pyWs).reverse with hb'
  have hsplit : a = b' ++ (a.reverse.takeWhile pyWs).reverse := by
    have := List.takeWhile_append_dropWhile (p := pyWs) (l := a.reverse)
    calc a = a.reverse.reverse := (List.reverse_reverse a).symm
    _ = (a.reverse.takeWhile pyWs ++ a.reverse.dropWhile pyWs).reverse := by rw [this]
    _ = b' ++ (a.reverse.takeWhile pyWs).reverse := by
        rw [List.reverse_append]
  have hdb : b'.dropWhile pyWs = b' :=
    dropWhile_eq_self_of_append pyWs a b' _ hda hsplit
  have hrb : b'.reverse.dropWhile pyWs = b'.reverse := by
    rw [hb', List.reverse_reverse]
    exact dropWhile_idem pyWs a.reverse
  show stripL (b') = b'
  unfold stripL
  rw [hdb, hrb, List.reverse_reverse]

lemma pyStrip_idem (s : String) : pyStrip (pyStrip s) = pyStrip s := by
  unfold pyStrip
  rw [data_mk, stripL_idem]

lemma pyStrip_empty : pyStrip "" = "" := rfl

/-- A whole list has no leading whitespace and no trailing whitespace
(characterisation used to show strip-fixedness). -/
lemma stripL_eq_self (l : List Char) (h1 : l.dropWhile pyWs = l)
    (h2 : l.reverse.dropWhile pyWs = l.reverse) : stripL l = l := by
  unfold stripL
  rw [h1, h2, List.reverse_reverse]

lemma joinSpL_getLast_nonWs :
    ∀ chs : List (List Char), (∀ ch ∈ chs, ch ≠ [] ∧ ∀ c ∈ ch, pyWs c = false) →
      ∀ c, (joinSpL chs).getLast? = some c → pyWs c = false := by
  intro chs
  induction chs with
  | nil => intro _ c hc; simp [joinSpL] at hc
  | cons x rest ih =>
    intro h c hc
    obtain ⟨hxne, hxnw⟩ := h x (by simp)
    cases rest with
    | nil =>
      rw [joinSpL] at hc
      obtain ⟨hne, heq⟩ := List.mem_getLast?_eq_getLast hc
      rw [heq]
      exact hxnw _ (List.getLast_mem hne)
    | cons y t =>
      rw [joinSpL] at hc
      have hrest : ∀ ch ∈ y :: t, ch ≠ [] ∧ ∀ c ∈ ch, pyWs c = false :=
        fun ch hch => h ch (by simp [hch])
      have hjne : joinSpL (y :: t) ≠ [] := by
        obtain ⟨hyne, _⟩ := hrest y (by simp)
        cases t with
        | nil => simpa [joinSpL] using hyne
        | cons z zs =>
          rw [joinSpL]
          cases y with
          | nil => exact absurd rfl hyne
          | cons yc yt => simp
      rw [List.getLast?_append_cons] at hc
      have : (' ' :: joinSpL (y :: t)).getLast? = (joinSpL (y :: t)).getLast? := by
        cases hj : joinSpL (y :: t) with
        | nil => exact absurd hj hjne
        | cons j0 js => rw [List.getLast?_cons_cons]
      rw [this] at hc
      exact ih hrest c hc

lemma stripL_joinSpL (chs : List (List Char))
    (h : ∀ ch ∈ chs, ch ≠ [] ∧ ∀ c ∈ ch, pyWs c = false) :
    stripL (joinSpL chs) = joinSpL chs := by
  apply stripL_eq_self
  · cases hj : joinSpL chs with
    | nil => rfl
    | cons c0 cs0 =>
      have := joinSpL_head_nonWs chs h c0 cs0 hj
      exact List.dropWhile_cons_of_neg (by simp [this])
  · cases hj : (joinSpL chs).reverse with
    | nil => rfl
    | cons c0 cs0 =>
      have hlast : (joinSpL chs).getLast? = some c0 := by
        rw [← List.head?_reverse, hj]
        rfl
      have := joinSpL_getLast_nonWs chs h c0 hlast
      exact List.dropWhile_cons_of_neg (by simp [this])

lemma pyStrip_joinsplit (s : String) :
    pyStrip (pyJoinSp (pySplitWs s)) = pyJoinSp (pySplitWs s) := by
  unfold pyStrip
  rw [joinsplit_data]
  rw [stripL_joinSpL _ (splitGo_chunks_wf _ [] (by simp))]
  apply String.ext
  rw [data_mk, joinsplit_data]

/-- The scrubbed answer is strip-fixed. -/
lemma pyStrip_scrub (a : String) : pyStrip (scrub_answer a) = scrub_answer a := by
  unfold scrub_answer
  split
  · rename_i h
    rw [h]
    rfl
  · exact pyStrip_joinsplit _

/-! ## Well-formedness of normalized reports (for the idempotence claim) -/

def wfStrList (xs : List String) : Prop := ∀ s ∈ xs, pyStrip s = s ∧ s ≠ ""

def wfLegend (lg : Legend) : Prop :=
  pyStrip lg.situation = lg.situation ∧ pyStrip lg.task = lg.task ∧
  pyStrip lg.action = lg.action ∧ pyStrip lg.result = lg.result

def wfExample (ex : QAExample) : Prop :=
  pyStrip ex.experience_name = ex.experience_name ∧
  pyStrip ex.experience_source_quote = ex.experience_source_quote ∧
  (ex.confidence = "high" ∨ ex.confidence = "medium" ∨ ex.confidence = "low") ∧
  pyStrip ex.question = ex.question ∧ ex.question ≠ "" ∧
  pyStrip ex.answer = ex.answer ∧ wfLegend ex.legend

def wfProject (p : Project) : Prop :=
  pyStrip p.title = p.title ∧ p.title ≠ "" ∧ pyStrip p.summary = p.summary

/-- Everything the second normalization pass needs to reproduce a report
exactly: all strings are strip-fixed and the truthiness-sensitive fields
are stable. -/
structure WfReport (r : PrepReport) (c : Option String) (m : String) : Prop where
  mode_wf : pyStrip r.mode = r.mode
  mode_empty : r.mode = "" → m = ""
  cand : pyOr r.candidate_name (optStrVal c) = r.candidate_name
  debug : ∀ s, r.debug_note = some s → pyStrip s = s ∧ s ≠ ""
  know1 : wfStrList r.know_all_about_them.mission_values
  know2 : wfStrList r.know_all_about_them.culture_snapshot
  know3 : wfStrList r.know_all_about_them.recent_projects_news
  know4 : wfStrList r.know_all_about_them.competitors_industry_trends
  fit1 : wfStrList r.perfect_fit_map.top_strengths
  fit2 : ∀ p ∈ r.perfect_fit_map.best_projects, wfProject p
  behq : wfStrList r.behavioral_practice.questions
  beha : ∀ ex ∈ r.behavioral_practice.example_answers, wfExample ex
  techq : wfStrList r.technical_prep.questions
  techa : ∀ ex ∈ r.technical_prep.example_answers, wfExample ex
  tech1 : wfStrList r.technical_prep.key_concepts
  tech2 : wfStrList r.technical_prep.red_flags
  imp1 : wfStrList r.improvement_zone.skill_gaps
  imp2 : wfStrList r.improvement_zone.soft_skills
  imp3 : wfStrList r.improvement_zone.learning_focus
  itm1 : wfStrList r.impress_them_back.team_culture
  itm2 : wfStrList r.impress_them_back.impact_growth
  itm3 : wfStrList r.impress_them_back.technical_depth
  itm4 : wfStrList r.impress_them_back.company_direction
  itm5 : wfStrList r.impress_them_back.next_steps

lemma if_strip_some (t s : String)
    (h : (if pyStrip t = "" then Option.none else some (pyStrip t)) = some s) :
    pyStrip s = s ∧ s ≠ "" := by
  split at h
  · simp at h
  · rename_i hne
    have hs : pyStrip t = s := by
      injection h
    rw [← hs]
    exact ⟨pyStrip_idem t, hne⟩

lemma coerce_one_wf (x : PyVal) (s : String) (h : coerce_one x = some s) :
    pyStrip s = s ∧ s ≠ "" := by
  cases x with
  | none => exact absurd h (by simp [coerce_one])
  | bool b => exact if_strip_some _ _ h
  | num q => exact if_strip_some _ _ h
  | str t => exact if_strip_some _ _ h
  | list xs => exact if_strip_some _ _ h
  | dict kvs => exact if_strip_some _ _ h

lemma coerce_str_list_wf (items : List PyVal) : wfStrList (coerce_str_list items) := by
  intro s hs
  obtain ⟨x, _, hfx⟩ := List.mem_filterMap.mp hs
  exact coerce_one_wf x s hfx

lemma coerce_roundtrip (xs : List String) (h : wfStrList xs) :
    coerce_str_list (as_list (strListToVal xs)) = xs := by
  show coerce_str_list (xs.map .str) = xs
  induction xs with
  | nil => rfl
  | cons s rest ih =>
    obtain ⟨hwf, hne⟩ := h s (by simp)
    have hone : coerce_one (.str s) = some s := by
      show (if pyStrip s = "" then Option.none else some (pyStrip s)) = some s
      rw [hwf, if_neg hne]
    show (List.filterMap coerce_one (.str s :: rest.map .str)) = s :: rest
    rw [List.filterMap_cons, hone]
    exact congrArg (s :: ·) (ih (fun t ht => h t (by simp [ht])))

lemma getStrField_of_str (kvs : List (String × PyVal)) (k s : String)
    (hget : dictGetD kvs k = .str s) (hwf : pyStrip s = s) : getStrField kvs k = s := by
  unfold getStrField
  rw [hget]
  show pyStrip (pyStr (if pyTruthy (.str s) = true then .str s else .str "")) = s
  by_cases hs : s = ""
  · subst hs
    rfl
  · have ht : pyTruthy (.str s) = true := by
      simp [pyTruthy, hs]
    rw [if_pos ht]
    exact hwf

lemma normConf_lower_trio (c : String)
    (h : c = "high" ∨ c = "medium" ∨ c = "low") : normConf (pyLower c) = c := by
  rcases h with rfl | rfl | rfl <;> decide

lemma trio_strip (c : String)
    (h : c = "high" ∨ c = "medium" ∨ c = "low") : pyStrip c = c := by
  rcases h with rfl | rfl | rfl <;> decide

lemma normalize_example_roundtrip (ex : QAExample) (h : wfExample ex) :
    normalize_example (exampleToVal ex) = some ex := by
  obtain ⟨n, qo, cf, qu, an, ⟨ls, lt, la, lr⟩⟩ := ex
  obtain ⟨hn, hqo, hcf, hqu, hqune, han, hls, hlt, hla, hlr⟩ := h
  have e1 : getStrField (as_dict (exampleToVal ⟨n, qo, cf, qu, an, ⟨ls, lt, la, lr⟩⟩))
      "experience_name" = n := getStrField_of_str _ _ _ rfl hn
  have e2 : getStrField (as_dict (exampleToVal ⟨n, qo, cf, qu, an, ⟨ls, lt, la, lr⟩⟩))
      "experience_source_quote" = qo := getStrField_of_str _ _ _ rfl hqo
  have e3 : getStrField (as_dict (exampleToVal ⟨n, qo, cf, qu, an, ⟨ls, lt, la, lr⟩⟩))
      "confidence" = cf := getStrField_of_str _ _ _ rfl (trio_strip cf hcf)
  have e4 : getStrField (as_dict (exampleToVal ⟨n, qo, cf, qu, an, ⟨ls, lt, la, lr⟩⟩))
      "question" = qu := getStrField_of_str _ _ _ rfl hqu
  have e5 : getStrField (as_dict (exampleToVal ⟨n, qo, cf, qu, an, ⟨ls, lt, la, lr⟩⟩))
      "answer" = an := getStrField_of_str _ _ _ rfl han
  have hld : as_dict (dictGetD (as_dict (exampleToVal ⟨n, qo, cf, qu, an, ⟨ls, lt, la, lr⟩⟩))
      "legend") = [("🔴Situation", .str ls), ("🔵Task", .str lt),
        ("🟢Action", .str la), ("🟣Result", .str lr)] := rfl
  have e6 : getStrField (as_dict (dictGetD
      (as_dict (exampleToVal ⟨n, qo, cf, qu, an, ⟨ls, lt, la, lr⟩⟩)) "legend"))
      "🔴Situation" = ls := by
    rw [hld]
    exact getStrField_of_str _ _ _ rfl hls
  have e7 : getStrField (as_dict (dictGetD
      (as_dict (exampleToVal ⟨n, qo, cf, qu, an, ⟨ls, lt, la, lr⟩⟩)) "legend"))
      "🔵Task" = lt := by
    rw [hld]
    exact getStrField_of_str _ _ _ rfl hlt
  have e8 : getStrField (as_dict (dictGetD
      (as_dict (exampleToVal ⟨n, qo, cf, qu, an, ⟨ls, lt, la, lr⟩⟩)) "legend"))
      "🟢Action" = la := by
    rw [hld]
    exact getStrField_of_str _ _ _ rfl hla
  have e9 : getStrField (as_dict (dictGetD
      (as_dict (exampleToVal ⟨n, qo, cf, qu, an, ⟨ls, lt, la, lr⟩⟩)) "legend"))
      "🟣Result" = lr := by
    rw [hld]
    exact getStrField_of_str _ _ _ rfl hlr
  unfold normalize_example
  simp only [e1, e2, e3, e4, e5, e6, e7, e8, e9, normConf_lower_trio cf hcf]
  rw [if_pos (Or.inl hqune)]

lemma normalize_examples_roundtrip (exs : List QAExample)
    (h : ∀ ex ∈ exs, wfExample ex) :
    normalize_examples_with_legend (exs.map exampleToVal) = exs := by
  induction exs with
  | nil => rfl
  | cons ex rest ih =>
    show List.filterMap normalize_example (exampleToVal ex :: rest.map exampleToVal)
      = ex :: rest
    rw [List.filterMap_cons, normalize_example_roundtrip ex (h ex (by simp))]
    exact congrArg (ex :: ·) (ih (fun e he => h e (by simp [he])))

lemma normalize_project_roundtrip (p : Project) (h : wfProject p) :
    normalize_project (projectToVal p) = some p := by
  obtain ⟨t, s⟩ := p
  obtain ⟨ht, htne, hs⟩ := h
  have e1 : getStrField (as_dict (projectToVal ⟨t, s⟩)) "title" = t :=
    getStrField_of_str _ _ _ rfl ht
  have e2 : getStrField (as_dict (projectToVal ⟨t, s⟩)) "summary" = s :=
    getStrField_of_str _ _ _ rfl hs
  unfold normalize_project
  simp only [e1, e2]
  rw [if_pos (Or.inl htne), if_pos htne]

lemma normalize_projects_roundtrip (ps : List Project) (h : ∀ p ∈ ps, wfProject p) :
    (as_list (strListToVal [])).filterMap normalize_project = ([] : List Project) ∧
    (ps.map projectToVal).filterMap normalize_project = ps := by
  constructor
  · rfl
  · induction ps with
    | nil => rfl
    | cons p rest ih =>
      rw [List.map_cons, List.filterMap_cons,
        normalize_project_roundtrip p (h p (by simp))]
      exact congrArg (p :: ·) (ih (fun x hx => h x (by simp [hx])))

lemma pyOr_idem (v w : PyVal) : pyOr (pyOr v w) w = pyOr v w := by
  unfold pyOr
  by_cases hv : pyTruthy v = true
  · rw [if_pos hv, if_pos hv]
  · rw [if_neg hv]
    split <;> rfl

lemma mode_roundtrip (s fm : String) (hwf : pyStrip s = s) (hem : s = "" → fm = "") :
    (let m1 := pyStrip (pyStr (pyOr (.str s) (.str fm)))
     if m1 = "" then fm else m1) = s := by
  by_cases hs : s = ""
  · have hf := hem hs
    subst hs
    subst hf
    rfl
  · have hor : pyOr (.str s) (.str fm) = .str s := by
      unfold pyOr
      rw [if_pos (by simp [pyTruthy, hs])]
    show (if pyStrip (pyStr (pyOr (.str s) (.str fm))) = "" then fm
      else pyStrip (pyStr (pyOr (.str s) (.str fm)))) = s
    rw [hor]
    show (if pyStrip s = "" then fm else pyStrip s) = s
    rw [hwf, if_neg hs]

lemma debug_roundtrip (dn : Option String)
    (h : ∀ s, dn = some s → pyStrip s = s ∧ s ≠ "") :
    (let s := pyStrip (pyStr (if pyTruthy (optStrVal dn) = true then optStrVal dn
        else .str ""))
     if s = "" then Option.none else some s) = dn := by
  cases dn with
  | none => rfl
  | some s =>
    obtain ⟨hwf, hne⟩ := h s rfl
    have ht : pyTruthy (.str s) = true := by
      simp [pyTruthy, hne]
    show (if pyStrip (pyStr (if pyTruthy (.str s) = true then .str s else .str "")) = ""
      then Option.none
      else some (pyStrip (pyStr (if pyTruthy (.str s) = true then .str s else .str "")))) = some s
    rw [if_pos ht]
    show (if pyStrip s = "" then Option.none else some (pyStrip s)) = some s
    rw [hwf, if_neg hne]

lemma KnowSection_ext (a b : KnowSection)
    (h1 : a.mission_values = b.mission_values)
    (h2 : a.culture_snapshot = b.culture_snapshot)
    (h3 : a.recent_projects_news = b.recent_projects_news)
    (h4 : a.competitors_industry_trends = b.competitors_industry_trends) : a = b := by
  cases a
  cases b
  simp_all

lemma FitSection_ext (a b : FitSection)
    (h1 : a.top_strengths = b.top_strengths)
    (h2 : a.best_projects = b.best_projects) : a = b := by
  cases a
  cases b
  simp_all

lemma BehSection_ext (a b : BehSection)
    (h1 : a.questions = b.questions)
    (h2 : a.example_answers = b.example_answers) : a = b := by
  cases a
  cases b
  simp_all

lemma TechSection_ext (a b : TechSection)
    (h1 : a.questions = b.questions)
    (h2 : a.example_answers = b.example_answers)
    (h3 : a.key_concepts = b.key_concepts)
    (h4 : a.red_flags = b.red_flags) : a = b := by
  cases a
  cases b
  simp_all

lemma ImprovementSection_ext (a b : ImprovementSection)
    (h1 : a.skill_gaps = b.skill_gaps)
    (h2 : a.soft_skills = b.soft_skills)
    (h3 : a.learning_focus = b.learning_focus) : a = b := by
  cases a
  cases b
  simp_all

lemma ImpressSection_ext (a b : ImpressSection)
    (h1 : a.team_culture = b.team_culture)
    (h2 : a.impact_growth = b.impact_growth)
    (h3 : a.technical_depth = b.technical_depth)
    (h4 : a.company_direction = b.company_direction)
    (h5 : a.next_steps = b.next_steps) : a = b := by
  cases a
  cases b
  simp_all

lemma PrepReport_ext (a b : PrepReport)
    (h1 : a.mode = b.mode)
    (h2 : a.candidate_name = b.candidate_name)
    (h3 : a.know_all_about_them = b.know_all_about_them)
    (h4 : a.perfect_fit_map = b.perfect_fit_map)
    (h5 : a.behavioral_practice = b.behavioral_practice)
    (h6 : a.technical_prep = b.technical_prep)
    (h7 : a.improvement_zone = b.improvement_zone)
    (h8 : a.impress_them_back = b.impress_them_back)
    (h9 : a.debug_note = b.debug_note) : a = b := by
  cases a
  cases b
  simp_all

/-- Re-normalizing the rendered form of a well-formed report reproduces it
exactly. -/
lemma normalize_roundtrip (r : PrepReport) (c : Option String) (m : String)
    (h : WfReport r c m) : normalize_prep_report (reportToVal r) c m = r := by
  apply PrepReport_ext
  · exact mode_roundtrip r.mode m h.mode_wf h.mode_empty
  · exact h.cand
  · apply KnowSection_ext
    · exact coerce_roundtrip _ h.know1
    · exact coerce_roundtrip _ h.know2
    · exact coerce_roundtrip _ h.know3
    · exact coerce_roundtrip _ h.know4
  · apply FitSection_ext
    · exact coerce_roundtrip _ h.fit1
    · exact (normalize_projects_roundtrip _ h.fit2).2
  · apply BehSection_ext
    · exact coerce_roundtrip _ h.behq
    · exact normalize_examples_roundtrip _ h.beha
  · apply TechSection_ext
    · exact coerce_roundtrip _ h.techq
    · exact normalize_examples_roundtrip _ h.techa
    · exact coerce_roundtrip _ h.tech1
    · exact coerce_roundtrip _ h.tech2
  · apply ImprovementSection_ext
    · exact coerce_roundtrip _ h.imp1
    · exact coerce_roundtrip _ h.imp2
    · exact coerce_roundtrip _ h.imp3
  · apply ImpressSection_ext
    · exact coerce_roundtrip _ h.itm1
    · exact coerce_roundtrip _ h.itm2
    · exact coerce_roundtrip _ h.itm3
    · exact coerce_roundtrip _ h.itm4
    · exact coerce_roundtrip _ h.itm5
  · exact debug_roundtrip r.debug_note h.debug

lemma getStrField_wf (kvs : List (String × PyVal)) (k : String) :
    pyStrip (getStrField kvs k) = getStrField kvs k :=
  pyStrip_idem _

lemma normConf_trio (c : String) :
    normConf c = "high" ∨ normConf c = "medium" ∨ normConf c = "low" := by
  unfold normConf
  split
  · assumption
  · right
    right
    rfl

lemma normalize_example_nq_wf (v : PyVal) (ex : QAExample)
    (h : normalize_example v = some ex) :
    pyStrip ex.experience_name = ex.experience_name ∧
    pyStrip ex.experience_source_quote = ex.experience_source_quote := by
  unfold normalize_example at h
  dsimp only at h
  split at h
  · have := Option.some.inj h
    rw [← this]
    exact ⟨getStrField_wf _ _, getStrField_wf _ _⟩
  · exact absurd h (by simp)

lemma normalize_project_wf (v : PyVal) (p : Project)
    (h : normalize_project v = some p) : wfProject p := by
  unfold normalize_project at h
  dsimp only at h
  split at h
  · have := Option.some.inj h
    rw [← this]
    by_cases ht : getStrField (as_dict v) "title" ≠ ""
    · rw [if_pos ht]
      exact ⟨getStrField_wf _ _, ht, getStrField_wf _ _⟩
    · rw [if_neg ht]
      refine ⟨?_, ?_, getStrField_wf _ _⟩
      · show pyStrip "Project highlight" = "Project highlight"
        decide
      · show ("Project highlight" : String) ≠ ""
        decide
  · exact absurd h (by simp)

set_option maxRecDepth 8000 in
lemma wf_default_beh_q : wfStrList default_beh_q := by
  show ∀ s ∈ default_beh_q, pyStrip s = s ∧ s ≠ ""
  decide

set_option maxRecDepth 8000 in
lemma wf_default_tech_q : wfStrList default_tech_q := by
  show ∀ s ∈ default_tech_q, pyStrip s = s ∧ s ≠ ""
  decide

lemma wf_take_append (a b : List String) (n : Nat) (ha : wfStrList a)
    (hb : wfStrList b) : wfStrList ((a ++ b).take n) := by
  intro s hs
  have := List.mem_append.mp (List.mem_of_mem_take hs)
  rcases this with hmem | hmem
  · exact ha s hmem
  · exact hb s hmem

set_option maxRecDepth 8000 in
lemma wf_make_fallback (q : String) (b : Bool) (hq : pyStrip q = q) (hqne : q ≠ "") :
    wfExample (make_fallback_answer q b) := by
  cases b
  · exact ⟨rfl, rfl, Or.inr (Or.inr rfl), hq, hqne, rfl, rfl, rfl, rfl, rfl⟩
  · exact ⟨rfl, rfl, Or.inr (Or.inr rfl), hq, hqne, rfl, rfl, rfl, rfl, rfl⟩

lemma wf_enforce_example (q : String) (ex : QAExample) (hq : pyStrip q = q)
    (hqne : q ≠ "")
    (hnq : pyStrip ex.experience_name = ex.experience_name ∧
      pyStrip ex.experience_source_quote = ex.experience_source_quote) :
    wfExample (enforce_example q ex) := by
  refine ⟨hnq.1, hnq.2, normConf_trio _, hq, hqne, pyStrip_scrub _,
    pyStrip_idem _, pyStrip_idem _, pyStrip_idem _, pyStrip_idem _⟩

lemma wf_align_answers (qs : List String) (amap : List QAExample) (b : Bool)
    (hqs : wfStrList qs)
    (hamap : ∀ ex ∈ amap,
      pyStrip ex.experience_name = ex.experience_name ∧
      pyStrip ex.experience_source_quote = ex.experience_source_quote) :
    ∀ ex ∈ align_answers qs amap b, wfExample ex := by
  intro ex hex
  unfold align_answers at hex
  obtain ⟨q, hq, hmk⟩ := List.mem_map.mp hex
  obtain ⟨hqwf, hqne⟩ := hqs q hq
  cases hidx : index_get amap q with
  | some ex0 =>
    rw [hidx] at hmk
    rw [← hmk]
    apply wf_enforce_example q ex0 hqwf hqne
    apply hamap
    unfold index_get at hidx
    split at hidx
    · exact absurd hidx (by simp)
    · exact List.mem_reverse.mp (List.mem_of_find?_eq_some hidx)
  | none =>
    rw [hidx] at hmk
    rw [← hmk]
    exact wf_make_fallback q b hqwf hqne

lemma mode_wf_aux (v : PyVal) (m : String) (hm : pyStrip m = m) :
    pyStrip (let m1 := pyStrip (pyStr (pyOr v (.str m)))
             if m1 = "" then m else m1)
      = (let m1 := pyStrip (pyStr (pyOr v (.str m)))
         if m1 = "" then m else m1) ∧
    ((let m1 := pyStrip (pyStr (pyOr v (.str m)))
      if m1 = "" then m else m1) = "" → m = "") := by
  show pyStrip (if pyStrip (pyStr (pyOr v (.str m))) = "" then m
      else pyStrip (pyStr (pyOr v (.str m))))
    = (if pyStrip (pyStr (pyOr v (.str m))) = "" then m
      else pyStrip (pyStr (pyOr v (.str m)))) ∧
    ((if pyStrip (pyStr (pyOr v (.str m))) = "" then m
      else pyStrip (pyStr (pyOr v (.str m)))) = "" → m = "")
  by_cases h : pyStrip (pyStr (pyOr v (.str m))) = ""
  · rw [if_pos h]
    exact ⟨hm, fun he => he⟩
  · rw [if_neg h]
    exact ⟨pyStrip_idem _, fun he => absurd he h⟩

lemma debug_wf_aux (kvs : List (String × PyVal)) :
    ∀ s, (let t := getStrField kvs "debug_note"
          if t = "" then Option.none else some t) = some s →
      pyStrip s = s ∧ s ≠ "" := by
  intro s h
  show pyStrip s = s ∧ s ≠ ""
  dsimp only at h
  split at h
  · exact absurd h (by simp)
  · rename_i hne
    have := Option.some.inj h
    rw [← this]
    exact ⟨getStrField_wf _ _, hne⟩

/-- The output of the full normalization path is well-formed. -/
lemma wf_normalize_path (data : List (String × PyVal)) (c : Option String)
    (m : String) (hm : pyStrip m = m) : WfReport (normalize_path data c m) c m := by
  refine
    { mode_wf := (mode_wf_aux (dictGetD data "mode") m hm).1
      mode_empty := (mode_wf_aux (dictGetD data "mode") m hm).2
      cand := pyOr_idem _ _
      debug := debug_wf_aux data
      know1 := coerce_str_list_wf _
      know2 := coerce_str_list_wf _
      know3 := coerce_str_list_wf _
      know4 := coerce_str_list_wf _
      fit1 := coerce_str_list_wf _
      fit2 := ?_
      behq := wf_take_append _ _ 6 (coerce_str_list_wf _) wf_default_beh_q
      beha := ?_
      techq := wf_take_append _ _ 6 (coerce_str_list_wf _) wf_default_tech_q
      techa := ?_
      tech1 := coerce_str_list_wf _
      tech2 := coerce_str_list_wf _
      imp1 := coerce_str_list_wf _
      imp2 := coerce_str_list_wf _
      imp3 := coerce_str_list_wf _
      itm1 := coerce_str_list_wf _
      itm2 := coerce_str_list_wf _
      itm3 := coerce_str_list_wf _
      itm4 := coerce_str_list_wf _
      itm5 := coerce_str_list_wf _ }
  · intro p hp
    obtain ⟨v, _, hv⟩ := List.mem_filterMap.mp hp
    exact normalize_project_wf v p hv
  · refine fun ex hex =>
      wf_align_answers _ _ false (wf_take_append _ _ 6 (coerce_str_list_wf _)
        wf_default_beh_q) ?_ ex hex
    intro e he
    obtain ⟨v, _, hv⟩ := List.mem_filterMap.mp he
    exact normalize_example_nq_wf v e hv
  · refine fun ex hex =>
      wf_align_answers _ _ true (wf_take_append _ _ 6 (coerce_str_list_wf _)
        wf_default_tech_q) ?_ ex hex
    intro e he
    obtain ⟨v, _, hv⟩ := List.mem_filterMap.mp he
    exact normalize_example_nq_wf v e hv

lemma find?_eq_of_mem_all {α : Type} (l : List α) (p : α → Bool) (a : α)
    (hex : ∃ x ∈ l, p x = true) (hall : ∀ x ∈ l, p x = true → x = a) :
    l.find? p = some a := by
  induction l with
  | nil =>
    obtain ⟨x, hx, _⟩ := hex
    simp at hx
  | cons y ys ih =>
    by_cases hy : p y = true
    · rw [List.find?_cons_of_pos _ hy]
      rw [hall y (by simp) hy]
    · rw [List.find?_cons_of_neg _ hy]
      apply ih
      · obtain ⟨x, hx, hpx⟩ := hex
        rcases List.mem_cons.mp hx with rfl | hx2
        · exact absurd hpx hy
        · exact ⟨x, hx2, hpx⟩
      · exact fun x hx hpx => hall x (by simp [hx]) hpx

/-- The alignment function at question `q` (one slot of the enforcement
loop). -/
def align_pick (amap : List QAExample) (b : Bool) (q : String) : QAExample :=
  match index_get amap q with
  | some ex => enforce_example q ex
  | Option.none => make_fallback_answer q b

lemma align_answers_eq_map (qs : List String) (amap : List QAExample) (b : Bool) :
    align_answers qs amap b = qs.map (align_pick amap b) := rfl

lemma align_pick_question_eq (amap : List QAExample) (b : Bool) (q : String) :
    (align_pick amap b q).question = q := align_pick_question q amap b

lemma index_get_align (qs : List String) (amap : List QAExample) (b : Bool)
    (q : String) (hq : q ∈ qs) (hwf : wfStrList qs) :
    index_get (align_answers qs amap b) q = some (align_pick amap b q) := by
  obtain ⟨hqwf, hqne⟩ := hwf q hq
  unfold index_get
  rw [if_neg hqne, align_answers_eq_map]
  apply find?_eq_of_mem_all
  · refine ⟨align_pick amap b q, ?_, ?_⟩
    · rw [List.mem_reverse]
      exact List.mem_map_of_mem _ hq
    · rw [align_pick_question_eq, hqwf]
      simp
  · intro x hx hpx
    obtain ⟨q2, hq2, hxq2⟩ := List.mem_map.mp (List.mem_reverse.mp hx)
    obtain ⟨hq2wf, _⟩ := hwf q2 hq2
    rw [← hxq2, align_pick_question_eq, hq2wf] at hpx
    have : q2 = q := by simpa using hpx
    rw [← hxq2, this]

lemma trio_normConf_fix (c : String)
    (h : c = "high" ∨ c = "medium" ∨ c = "low") :
    normConf (pyStrip (pyLower c)) = c := by
  rcases h with rfl | rfl | rfl <;> decide

lemma Legend_ext (a b : Legend)
    (h1 : a.situation = b.situation) (h2 : a.task = b.task)
    (h3 : a.action = b.action) (h4 : a.result = b.result) : a = b := by
  cases a
  cases b
  simp_all

lemma QAExample_ext (a b : QAExample)
    (h1 : a.experience_name = b.experience_name)
    (h2 : a.experience_source_quote = b.experience_source_quote)
    (h3 : a.confidence = b.confidence)
    (h4 : a.question = b.question)
    (h5 : a.answer = b.answer)
    (h6 : a.legend = b.legend) : a = b := by
  cases a
  cases b
  simp_all

lemma enforce_example_fix (q : String) (ex : QAExample)
    (hconf : ex.confidence = "high" ∨ ex.confidence = "medium" ∨ ex.confidence = "low")
    (hq : ex.question = q)
    (hans : scrub_answer ex.answer = ex.answer)
    (hleg : wfLegend ex.legend) :
    enforce_example q ex = ex := by
  apply QAExample_ext
  · rfl
  · rfl
  · exact trio_normConf_fix _ hconf
  · exact hq.symm
  · exact hans
  · exact Legend_ext _ _ hleg.1 hleg.2.1 hleg.2.2.1 hleg.2.2.2

lemma align_pick_conf_trio (amap : List QAExample) (b : Bool) (q : String) :
    (align_pick amap b q).confidence = "high" ∨
    (align_pick amap b q).confidence = "medium" ∨
    (align_pick amap b q).confidence = "low" := by
  unfold align_pick
  cases index_get amap q with
  | some ex => exact normConf_trio _
  | none =>
    right
    right
    cases b <;> rfl

lemma align_pick_legend_wf (amap : List QAExample) (b : Bool) (q : String) :
    wfLegend (align_pick amap b q).legend := by
  unfold align_pick
  cases index_get amap q with
  | some ex => exact ⟨pyStrip_idem _, pyStrip_idem _, pyStrip_idem _, pyStrip_idem _⟩
  | none => cases b <;> exact ⟨rfl, rfl, rfl, rfl⟩

lemma align_answers_idem (qs : List String) (amap : List QAExample) (b : Bool)
    (hwf : wfStrList qs)
    (hscrub : ∀ ex ∈ align_answers qs amap b, scrub_answer ex.answer = ex.answer) :
    align_answers qs (align_answers qs amap b) b = align_answers qs amap b := by
  show qs.map (align_pick (align_answers qs amap b) b) = qs.map (align_pick amap b)
  apply List.map_congr_left
  intro q hq
  show (match index_get (align_answers qs amap b) q with
        | some ex => enforce_example q ex
        | Option.none => make_fallback_answer q b) = align_pick amap b q
  rw [index_get_align qs amap b q hq hwf]
  show enforce_example q (align_pick amap b q) = align_pick amap b q
  apply enforce_example_fix
  · exact align_pick_conf_trio amap b q
  · exact align_pick_question_eq amap b q
  · apply hscrub
    rw [align_answers_eq_map]
    exact List.mem_map_of_mem _ hq
  · exact align_pick_legend_wf amap b q

/-- The two sections' answer lists of a normalized report have all their
answers fixed by another scrub pass (the hypothesis the idempotence claim
needs; the counterexample shows it can fail). -/
def answers_scrub_fixed (r : PrepReport) : Prop :=
  (∀ ex ∈ r.behavioral_practice.example_answers, scrub_answer ex.answer = ex.answer) ∧
  (∀ ex ∈ r.technical_prep.example_answers, scrub_answer ex.answer = ex.answer)

lemma enforce_enforce (r0 : PrepReport)
    (hbq : wfStrList r0.behavioral_practice.questions)
    (htq : wfStrList r0.technical_prep.questions)
    (hP : answers_scrub_fixed (enforce_exact_qna_counts r0)) :
    enforce_exact_qna_counts (enforce_exact_qna_counts r0) = enforce_exact_qna_counts r0 := by
  obtain ⟨hPb, hPt⟩ := hP
  have hlb : ((r0.behavioral_practice.questions ++ default_beh_q).take 6).length = 6 :=
    take6_append_length _ _ rfl
  have hlt : ((r0.technical_prep.questions ++ default_tech_q).take 6).length = 6 :=
    take6_append_length _ _ rfl
  have htb : (((r0.behavioral_practice.questions ++ default_beh_q).take 6)
      ++ default_beh_q).take 6 = (r0.behavioral_practice.questions ++ default_beh_q).take 6 :=
    List.take_left' hlb
  have htt : (((r0.technical_prep.questions ++ default_tech_q).take 6)
      ++ default_tech_q).take 6 = (r0.technical_prep.questions ++ default_tech_q).take 6 :=
    List.take_left' hlt
  have hwb : wfStrList ((r0.behavioral_practice.questions ++ default_beh_q).take 6) :=
    wf_take_append _ _ 6 hbq wf_default_beh_q
  have hwt : wfStrList ((r0.technical_prep.questions ++ default_tech_q).take 6) :=
    wf_take_append _ _ 6 htq wf_default_tech_q
  apply PrepReport_ext
  · rfl
  · rfl
  · rfl
  · rfl
  · apply BehSection_ext
    · exact htb
    · show align_answers (((r0.behavioral_practice.questions ++ default_beh_q).take 6
          ++ default_beh_q).take 6)
        (align_answers ((r0.behavioral_practice.questions ++ default_beh_q).take 6)
          r0.behavioral_practice.example_answers false) false
        = align_answers ((r0.behavioral_practice.questions ++ default_beh_q).take 6)
            r0.behavioral_practice.example_answers false
      rw [htb]
      exact align_answers_idem _ _ false hwb hPb
  · apply TechSection_ext
    · exact htt
    · show align_answers (((r0.technical_prep.questions ++ default_tech_q).take 6
          ++ default_tech_q).take 6)
        (align_answers ((r0.technical_prep.questions ++ default_tech_q).take 6)
          r0.technical_prep.example_answers true) true
        = align_answers ((r0.technical_prep.questions ++ default_tech_q).take 6)
            r0.technical_prep.example_answers true
      rw [htt]
      exact align_answers_idem _ _ true hwt hPt
    · rfl
    · rfl
  · rfl
  · rfl
  · rfl

/-! ## Claim C5: idempotence of the normalization path -/

/-- A raw document on which normalization is *not* idempotent: the answer
scrub splices a fresh `🔴Situation:` token, which only a second pass
removes. -/
def c5doc : List (String × PyVal) :=
  [("behavioral_practice", .dict
      [("questions", .list [.str "q1"]),
       ("example_answers", .list
         [.dict [("question", .str "q1"),
                 ("answer", .str "🔴🔴Situation:Situation: We shipped the fix.")]])])]

set_option maxRecDepth 8000 in
/-- **C5 (counterexample).** Running the normalization path on its own
output is not always a fixed point: on `c5doc` the first pass leaves the
answer `🔴Situation: We shipped the fix.` and the second pass scrubs it
down to `We shipped the fix.`. -/
theorem claim_C5_counterexample :
    normalize_path (reportToVal (normalize_path c5doc (some "Ann") "role_focused"))
        (some "Ann") "role_focused"
      ≠ normalize_path c5doc (some "Ann") "role_focused" := by
  intro h
  have h2 := congrArg
    (fun r => (r.behavioral_practice.example_answers.map (fun e => e.answer)).head?) h
  exact absurd h2 (by decide)

/-- **C5 (amended).** The normalization path is idempotent on every raw
document whose one-pass output has scrub-fixed answers — equivalently,
whose answers contain no spliced STAR-phase token after one pass (all
ordinary documents; the counterexample's stray marker is what breaks the
general form) — for any whitespace-stripped fallback mode (the generator
only ever passes `"role_and_company"` / `"role_focused"`). -/
theorem claim_C5_amended (data : List (String × PyVal)) (c : Option String)
    (m : String) (hm : pyStrip m = m)
    (hP : answers_scrub_fixed (normalize_path data c m)) :
    normalize_path (reportToVal (normalize_path data c m)) c m
      = normalize_path data c m := by
  show enforce_exact_qna_counts
      (normalize_prep_report (reportToVal (normalize_path data c m)) c m)
    = normalize_path data c m
  rw [normalize_roundtrip _ c m (wf_normalize_path data c m hm)]
  exact enforce_enforce (normalize_prep_report data c m)
    (coerce_str_list_wf _) (coerce_str_list_wf _) hP

/-- An ordinary raw document (an answer supplied for every question) used
to witness the amended idempotence. -/
def c5fulldoc : List (String × PyVal) :=
  [("behavioral_practice", .dict
      [("questions", .list []),
       ("example_answers", .list (default_beh_q.map (fun q =>
          .dict [("question", .str q), ("answer", .str "ok")])))]),
   ("technical_prep", .dict
      [("questions", .list []),
       ("example_answers", .list (default_tech_q.map (fun q =>
          .dict [("question", .str q), ("answer", .str "ok")])))])]

set_option maxRecDepth 8000 in
/-- Witness for C5's amended form at a concrete ordinary document. -/
theorem claim_C5_witness :
    pyStrip "role_focused" = "role_focused" ∧
    answers_scrub_fixed (normalize_path c5fulldoc Option.none "role_focused") ∧
    normalize_path (reportToVal (normalize_path c5fulldoc Option.none "role_focused"))
        Option.none "role_focused"
      = normalize_path c5fulldoc Option.none "role_focused" := by
  refine ⟨by decide, ?_, ?_⟩
  · show (∀ ex ∈ (normalize_path c5fulldoc Option.none
        "role_focused").behavioral_practice.example_answers,
          scrub_answer ex.answer = ex.answer) ∧
      (∀ ex ∈ (normalize_path c5fulldoc Option.none
        "role_focused").technical_prep.example_answers,
          scrub_answer ex.answer = ex.answer)
    decide
  · apply claim_C5_amended c5fulldoc Option.none "role_focused" (by decide)
    show (∀ ex ∈ (normalize_path c5fulldoc Option.none
        "role_focused").behavioral_practice.example_answers,
          scrub_answer ex.answer = ex.answer) ∧
      (∀ ex ∈ (normalize_path c5fulldoc Option.none
        "role_focused").technical_prep.example_answers,
          scrub_answer ex.answer = ex.answer)
    decide
